import Mathlib

/-!
Verification of the furni-store server against its specification.

The definitions below are a shallow embedding of the backend controllers
(`src/Server/src/controllers/*.ts` and the checkout / cart / review
controllers) over a relational-state model.  Database tables are lists of
rows; Prisma calls (`findUnique`, `findMany`, `create`, `deleteMany`,
`$transaction`) become pure list operations; each awaited Prisma statement
is one atomic transaction, modelled as a list of primitive write steps.
JavaScript numbers that can be `NaN` (results of `parseInt`) are modelled
by `JsNum`; decimal prices are modelled exactly by `ℚ`.
-/

deriving instance DecidableEq for Except

namespace FurniStore

/-- Result of JavaScript `parseInt`: either `NaN` or an integer. -/
inductive JsNum where
  | nan : JsNum
  | int : Int → JsNum
  deriving Repr, DecidableEq

/-- Value of a hexadecimal digit character, `none` if not a hex digit. -/
def hexDigitValue (c : Char) : Option Nat :=
  if c.isDigit then some (c.toNat - 48)
  else if 'a' ≤ c ∧ c ≤ 'f' then some (c.toNat - 87)
  else if 'A' ≤ c ∧ c ≤ 'F' then some (c.toNat - 55)
  else none

/-- Value of a decimal digit character, `none` otherwise. -/
def decDigitValue (c : Char) : Option Nat :=
  if c.isDigit then some (c.toNat - 48) else none

/-- Accumulate the longest run of digits; `none` when no digit was read. -/
def parseDigitRun (base : Nat) (digitOf : Char → Option Nat) :
    List Char → Option Nat → Option Nat
  | [], acc => acc
  | c :: cs, acc =>
    match digitOf c with
    | some d => parseDigitRun base digitOf cs (some (acc.getD 0 * base + d))
    | none => acc

/-- JavaScript `parseInt(s)` (radix auto-detection): skip whitespace, read an
optional sign, then the longest run of decimal (or `0x`-hexadecimal) digits;
`NaN` when no digit is present. -/
def parseIntJs (s : String) : JsNum :=
  let cs := s.data.dropWhile Char.isWhitespace
  let signed : Int × List Char :=
    match cs with
    | '-' :: rest => (-1, rest)
    | '+' :: rest => (1, rest)
    | _ => (1, cs)
  let body : Option Nat :=
    match signed.2 with
    | '0' :: 'x' :: rest => parseDigitRun 16 hexDigitValue rest none
    | '0' :: 'X' :: rest => parseDigitRun 16 hexDigitValue rest none
    | rest => parseDigitRun 10 decDigitValue rest none
  match body with
  | none => JsNum.nan
  | some n => JsNum.int (signed.1 * n)

/-- `recommendationQuerySchema.limit`: `val ? parseInt(val) : 10`
(the empty string is falsy in JavaScript). -/
def parseLimit : Option String → JsNum
  | none => JsNum.int 10
  | some s => if s = "" then JsNum.int 10 else parseIntJs s

/-- `recommendationQuerySchema.excludeId`: `val ? parseInt(val) : undefined`. -/
def parseExcludeId : Option String → Option JsNum
  | none => none
  | some s => if s = "" then none else some (parseIntJs s)

/-- JavaScript truthiness of a numeric value: `undefined`, `NaN` and `0`
are falsy; every other integer is truthy. -/
def truthyInt : Option JsNum → Option Int
  | some (JsNum.int n) => if n = 0 then none else some n
  | _ => none

/-- The controllers' guard `limit < 1 || limit > 50`.  JavaScript comparisons
with `NaN` are `false`, so a `NaN` limit is NOT rejected. -/
def limitRejected : JsNum → Bool
  | JsNum.nan => false
  | JsNum.int n => n < 1 || 50 < n

/-- `ApiError` of `src/Server/src/utils/errors.ts`: an HTTP status code and a
message.  The `missing` field carries the furniture ids that the source
interpolates into the `Furniture items not found: ...` message. -/
structure ApiErr where
  statusCode : Nat
  message : String
  missing : List Int
  deriving Repr, DecidableEq

def badRequest (m : String) : ApiErr := ⟨400, m, []⟩

def notFound (m : String) : ApiErr := ⟨404, m, []⟩

def unauthorizedErr (m : String) : ApiErr := ⟨401, m, []⟩

def forbiddenErr (m : String) : ApiErr := ⟨403, m, []⟩

/-- A `Prisma.PrismaClientValidationError` (e.g. Prisma rejecting `take: NaN`)
reaches `errorHandler.ts`, whose dedicated branch maps it to a 400 response
with the message "Invalid data provided". -/
def prismaValidationError : ApiErr := ⟨400, "Invalid data provided", []⟩

def notFoundMissing (ids : List Int) : ApiErr :=
  ⟨404, "Furniture items not found", ids⟩

/-- `Order.status` enum. -/
inductive OrderStatus where
  | PENDING : OrderStatus
  | COMPLETED : OrderStatus
  | CANCELLED : OrderStatus
  deriving Repr, DecidableEq

structure Furniture where
  id : Int
  categoryId : Int
  price : ℚ
  createdAt : Int
  deriving Repr, DecidableEq

structure Review where
  id : Int
  userId : Int
  furnitureId : Int
  rating : Int
  comment : Option String
  deriving Repr, DecidableEq

structure Cart where
  id : Int
  userId : Int
  deriving Repr, DecidableEq

structure CartItem where
  id : Int
  cartId : Int
  furnitureId : Int
  quantity : Int
  deriving Repr, DecidableEq

structure Order where
  id : Int
  userId : Option Int
  totalAmount : ℚ
  status : OrderStatus
  deriving Repr, DecidableEq

structure OrderItem where
  id : Int
  orderId : Int
  furnitureId : Int
  quantity : Int
  unitPrice : ℚ
  deriving Repr, DecidableEq

/-- The relational store: one list of rows per table (users and categories
are reduced to their ids, the only fields the verified handlers consult). -/
structure DB where
  users : List Int
  categories : List Int
  furnitures : List Furniture
  reviews : List Review
  carts : List Cart
  cartItems : List CartItem
  orders : List Order
  orderItems : List OrderItem
  deriving Repr, DecidableEq

/-- Ratings of the reviews associated with a furniture id. -/
def ratingsFor (db : DB) (fid : Int) : List Int :=
  (db.reviews.filter (fun r => r.furnitureId == fid)).map (·.rating)

/-- Number of `OrderItem` rows referencing a furniture id
(`_count.orderItems`). -/
def orderItemCount (db : DB) (fid : Int) : Nat :=
  (db.orderItems.filter (fun oi => oi.furnitureId == fid)).length

/-- The rating aggregator applied by every furniture-returning response:
`averageRating = mean(ratings)` or `null` for zero reviews. -/
def averageRatingOf (db : DB) (fid : Int) : Option ℚ :=
  let rs := ratingsFor db fid
  if 0 < rs.length then some ((rs.sum : ℚ) / (rs.length : ℚ)) else none

/-- Output shape of `{...item, averageRating, reviewCount, reviews: undefined}`:
the raw per-review collection is stripped (this record has no reviews field);
`orderCount` is only populated by the popularity helper. -/
structure EnrichedFurniture where
  id : Int
  categoryId : Int
  price : ℚ
  createdAt : Int
  averageRating : Option ℚ
  reviewCount : Nat
  orderCount : Option Nat
  deriving Repr, DecidableEq

def enrichFurniture (db : DB) (f : Furniture) : EnrichedFurniture :=
  ⟨f.id, f.categoryId, f.price, f.createdAt,
    averageRatingOf db f.id, (ratingsFor db f.id).length, none⟩

/-- Enrichment used by the popularity helper, which also reports
`orderCount = item._count.orderItems`. -/
def enrichPopular (db : DB) (f : Furniture) : EnrichedFurniture :=
  ⟨f.id, f.categoryId, f.price, f.createdAt,
    averageRatingOf db f.id, (ratingsFor db f.id).length,
    some (orderItemCount db f.id)⟩

/-- Insert into a sorted list, placing `a` before the first element `b`
with `le a b`. -/
def insertLe (le : α → α → Bool) (a : α) : List α → List α
  | [] => [a]
  | b :: bs => if le a b then a :: b :: bs else b :: insertLe le a bs

/-- Insertion sort; models the `orderBy` clause of `findMany` (the claims
only depend on the result being a permutation of its input). -/
def isort (le : α → α → Bool) : List α → List α
  | [] => []
  | a :: as => insertLe le a (isort le as)

/-- `orderBy: [{reviews: {_count: desc}}, {createdAt: desc}]`. -/
def rankLe (db : DB) (f g : Furniture) : Bool :=
  (ratingsFor db g.id).length < (ratingsFor db f.id).length ||
    ((ratingsFor db f.id).length == (ratingsFor db g.id).length &&
      g.createdAt ≤ f.createdAt)

/-- `orderBy: [{orderItems: {_count: desc}}, {reviews: {_count: desc}},
{createdAt: desc}]` of the popularity helper. -/
def popularLe (db : DB) (f g : Furniture) : Bool :=
  orderItemCount db g.id < orderItemCount db f.id ||
    (orderItemCount db f.id == orderItemCount db g.id &&
      ((ratingsFor db g.id).length < (ratingsFor db f.id).length ||
        ((ratingsFor db f.id).length == (ratingsFor db g.id).length &&
          g.createdAt ≤ f.createdAt)))

/-- `prisma.furniture.findMany({where, orderBy, take})`. -/
def furnitureQuery (db : DB) (pred : Furniture → Bool)
    (le : Furniture → Furniture → Bool) (n : Nat) : List Furniture :=
  (isort le (db.furnitures.filter pred)).take n

/-- `[...new Set(l)]`: deduplicate keeping first occurrences. -/
def dedupFirstAux (seen : List Int) : List Int → List Int
  | [] => []
  | a :: as =>
    if seen.contains a then dedupFirstAux seen as
    else a :: dedupFirstAux (a :: seen) as

def dedupFirst (l : List Int) : List Int := dedupFirstAux [] l

/-- `prisma.orderItem.findMany({where: {order: {userId, status: COMPLETED}}})`:
the user's purchase history. -/
def completedOrderItems (db : DB) (uid : Int) : List OrderItem :=
  db.orderItems.filter (fun oi =>
    ((db.orders.find? (fun o => o.id == oi.orderId)).map
      (fun o => o.userId == some uid && o.status == OrderStatus.COMPLETED)).getD false)

/-- Furniture ids the user has purchased via COMPLETED orders. -/
def purchasedIds (db : DB) (uid : Int) : List Int :=
  (completedOrderItems db uid).map (·.furnitureId)

/-- `include: {furniture: {select: {categoryId}}}`: the category of the
furniture row an order item references (inner join on the foreign key). -/
def categoryOfItem (db : DB) (oi : OrderItem) : Option Int :=
  (db.furnitures.find? (fun f => f.id == oi.furnitureId)).map (·.categoryId)

/-- The `excludeId ? [...base, excludeId] : base` idiom shared by the three
strategy helpers. -/
def excludeIdsFor (excl : Option Int) (base : List Int) : List Int :=
  match excl with
  | some e => base ++ [e]
  | none => base

/-- `getCollaborativeRecommendations`: furniture from the categories of the
user's purchases, excluding purchased ids and the truthy `excludeId`. -/
def collabPart (db : DB) (uid : Int) (n : Nat) (excl : Option Int) :
    List EnrichedFurniture :=
  let userOrders := completedOrderItems db uid
  if userOrders.length == 0 then []
  else
    let categoryIds := dedupFirst (userOrders.filterMap (categoryOfItem db))
    let purchased := userOrders.map (·.furnitureId)
    let excludeIds := excludeIdsFor excl purchased
    (furnitureQuery db
      (fun f => categoryIds.contains f.categoryId && !(excludeIds.contains f.id))
      (rankLe db) n).map (enrichFurniture db)

/-- Bump the count of a key in an association list, keeping first-insertion
order (JavaScript `Map` iteration order). -/
def bumpCount : List (Int × Nat) → Int → List (Int × Nat)
  | [], c => [(c, 1)]
  | (k, v) :: rest, c =>
    if k == c then (k, v + 1) :: rest else (k, v) :: bumpCount rest c

/-- `getCategoryBasedRecommendations`: rank the user's purchased categories by
purchase frequency and query furniture in them, excluding only the
already-collected ids and the truthy `excludeId` (NOT the purchased ids). -/
def categoryPart (db : DB) (userOrders : List OrderItem) (n : Nat)
    (excl : Option Int) (collected : List Int) : List EnrichedFurniture :=
  let counts := userOrders.foldl (fun acc oi =>
    match categoryOfItem db oi with
    | some cid => bumpCount acc cid
    | none => acc) []
  let preferred := (isort (fun a b => b.2 ≤ a.2) counts).map (·.1)
  if preferred.length == 0 then []
  else
    let excludeIds := excludeIdsFor excl collected
    (furnitureQuery db
      (fun f => preferred.contains f.categoryId && !(excludeIds.contains f.id))
      (rankLe db) n).map (enrichFurniture db)

/-- `getPopularRecommendationsHelper`: all furniture minus the exclusion
list, ranked by order count, review count, then recency. -/
def popularPart (db : DB) (n : Nat) (excl : Option Int) (collected : List Int) :
    List EnrichedFurniture :=
  let excludeList := excludeIdsFor excl collected
  (furnitureQuery db (fun f => !(excludeList.contains f.id))
    (popularLe db) n).map (enrichPopular db)

/-- The ids of a list of enriched results (`recommendations.map(r => r.id)`). -/
def idsOf (l : List EnrichedFurniture) : List Int := l.map (·.id)

/-- The three tiers of `getUserRecommendations`: collaborative, then
category-based when short, then popularity when still short.  Each helper's
own empty-history / empty-category guard reproduces the handler's skipping
of the first two tiers for a user without purchase history. -/
def hybridTiers (db : DB) (uid : Int) (n : Nat) (excl : Option Int) :
    List EnrichedFurniture × List EnrichedFurniture × List EnrichedFurniture :=
  let userOrders := completedOrderItems db uid
  let c := if 0 < userOrders.length then collabPart db uid n excl else []
  let k := if 0 < userOrders.length ∧ c.length < n then
      categoryPart db userOrders (n - c.length) excl (idsOf c)
    else []
  let p := if (c ++ k).length < n then
      popularPart db (n - (c ++ k).length) excl (idsOf (c ++ k))
    else []
  (c, k, p)

/-- Response payload `{recommendations, algorithm}`. -/
structure RecResult where
  recommendations : List EnrichedFurniture
  algorithm : String
  deriving Repr, DecidableEq

/-- `GET /api/recommendations/user/:userId` (`getUserRecommendations`).
A `NaN` limit passes the range guard; after the user-existence check, a user
with purchase history reaches the collaborative `findMany` whose `take: NaN`
raises `PrismaClientValidationError` (mapped to 400 by the error handler),
while a user without history skips every tier (`0 < NaN` is false) and the
request succeeds with `[].slice(0, NaN) = []` and the `popular` label. -/
def getUserRecommendations (db : DB) (userId : Int)
    (limitQ excludeQ : Option String) : Except ApiErr RecResult :=
  let limit := parseLimit limitQ
  if limitRejected limit then
    Except.error (badRequest "Limit must be between 1 and 50")
  else if !(db.users.contains userId) then
    Except.error (notFound "User not found")
  else
    match limit with
    | JsNum.nan =>
      if 0 < (completedOrderItems db userId).length then
        Except.error prismaValidationError
      else
        Except.ok ⟨[], "popular"⟩
    | JsNum.int n =>
      let excl := truthyInt (parseExcludeId excludeQ)
      let tiers := hybridTiers db userId n.toNat excl
      let recs := tiers.1 ++ tiers.2.1 ++ tiers.2.2
      Except.ok ⟨recs.take n.toNat,
        if 0 < (completedOrderItems db userId).length then "hybrid" else "popular"⟩

/-- `GET /api/recommendations/popular` (`getPopularItems`).  A `NaN` limit
passes the range guard and the helper's `findMany` with `take: NaN` raises
`PrismaClientValidationError`, mapped to 400 by the error handler. -/
def getPopularItems (db : DB) (limitQ excludeQ : Option String) :
    Except ApiErr RecResult :=
  let limit := parseLimit limitQ
  if limitRejected limit then
    Except.error (badRequest "Limit must be between 1 and 50")
  else
    match limit with
    | JsNum.nan => Except.error prismaValidationError
    | JsNum.int n =>
      Except.ok ⟨popularPart db n.toNat (truthyInt (parseExcludeId excludeQ)) [],
        "popular"⟩

/-- `GET /api/recommendations/category/:categoryId`
(`getCategoryRecommendations`).  A `NaN` limit passes the range guard; after
the category-existence check, `findMany` with `take: NaN` raises
`PrismaClientValidationError`, mapped to 400 by the error handler. -/
def getCategoryRecommendations (db : DB) (categoryId : Int)
    (limitQ excludeQ : Option String) : Except ApiErr RecResult :=
  let limit := parseLimit limitQ
  if limitRejected limit then
    Except.error (badRequest "Limit must be between 1 and 50")
  else if !(db.categories.contains categoryId) then
    Except.error (notFound "Category not found")
  else
    match limit with
    | JsNum.nan => Except.error prismaValidationError
    | JsNum.int n =>
      let excl := truthyInt (parseExcludeId excludeQ)
      let pred := fun (f : Furniture) => f.categoryId == categoryId &&
        (match excl with
          | some e => f.id != e
          | none => true)
      Except.ok ⟨(furnitureQuery db pred (rankLe db) n.toNat).map (enrichFurniture db),
        "category-based"⟩

/-- `GET /api/recommendations/similar/:furnitureId`
(`getSimilarRecommendations`): same category, price within the ±30% band,
the reference item excluded.  A `NaN` limit passes the range guard; after the
furniture-existence check, `findMany` with `take: NaN` raises
`PrismaClientValidationError`, mapped to 400 by the error handler. -/
def getSimilarRecommendations (db : DB) (furnitureId : Int)
    (limitQ : Option String) : Except ApiErr RecResult :=
  let limit := parseLimit limitQ
  if limitRejected limit then
    Except.error (badRequest "Limit must be between 1 and 50")
  else
    match db.furnitures.find? (fun f => f.id == furnitureId) with
    | none => Except.error (notFound "Furniture not found")
    | some cur =>
      match limit with
      | JsNum.nan => Except.error prismaValidationError
      | JsNum.int n =>
        let priceRange := cur.price * (3 / 10 : ℚ)
        let minPrice := cur.price - priceRange
        let maxPrice := cur.price + priceRange
        let pred := fun (f : Furniture) => f.categoryId == cur.categoryId &&
          f.id != furnitureId && minPrice ≤ f.price && f.price ≤ maxPrice
        Except.ok ⟨(furnitureQuery db pred (rankLe db) n.toNat).map (enrichFurniture db),
          "content-based"⟩

/-- Payload of `GET /api/furnitures/:id`: `{...item, averageRating,
reviewCount}`.  The spread keeps the included raw `reviews` rows in the
payload — this handler has no `reviews: undefined` line, unlike the list and
recommendation responses, so the record carries a reviews field. -/
structure FurnitureDetail where
  id : Int
  categoryId : Int
  price : ℚ
  createdAt : Int
  reviews : List Review
  averageRating : Option ℚ
  reviewCount : Nat
  deriving Repr, DecidableEq

/-- `GET /api/furnitures/:id` (`getFurniture` of the furniture controller):
look up the furniture by id (`NotFound` otherwise), include its review rows,
and return the item with `averageRating` and `reviewCount` computed from
those rows and the rows themselves still present.  (The handler orders the
included reviews by `createdAt` descending; review rows in this embedding
carry no timestamp, so the response holds the same rows in table order — a
permutation none of the verified properties depends on.) -/
def getFurniture (db : DB) (id : Int) : Except ApiErr FurnitureDetail :=
  match db.furnitures.find? (fun f => f.id == id) with
  | none => Except.error (notFound "Furniture not found")
  | some item =>
    let rs := db.reviews.filter (fun rv => rv.furnitureId == id)
    Except.ok ⟨item.id, item.categoryId, item.price, item.createdAt,
      rs, averageRatingOf db id, rs.length⟩

/-- An entry of `itemsData`/`orderItemsData`: the furniture id, the requested
quantity and the unit price snapshotted from the furniture's current price. -/
structure ItemData where
  furnitureId : Int
  quantity : Int
  unitPrice : ℚ
  deriving Repr, DecidableEq

/-- One item of the request body's explicit `items` array. -/
structure DirectItem where
  furnitureId : Int
  quantity : Int
  deriving Repr, DecidableEq

/-- Primitive database write steps.  Each awaited Prisma statement is one
atomic transaction, i.e. one `List DbStep`; `prisma.$transaction` blocks
fuse several statements into one such list. -/
inductive DbStep where
  | createOrderRow (o : Order)
  | createOrderItemRow (oi : OrderItem)
  | deleteCartItemsByCart (cartId : Int)
  | deleteCartItemsByUser (userId : Int)
  | createReviewRow (r : Review)
  | setOrderStatus (oid : Int) (s : OrderStatus)
  deriving Repr, DecidableEq

/-- `where: {cart: {userId}}` membership test for a cart item. -/
def cartBelongsToUser (db : DB) (uid cartId : Int) : Bool :=
  db.carts.any (fun c => c.id == cartId && c.userId == uid)

def applyStep (db : DB) : DbStep → DB
  | DbStep.createOrderRow o => { db with orders := db.orders ++ [o] }
  | DbStep.createOrderItemRow oi => { db with orderItems := db.orderItems ++ [oi] }
  | DbStep.deleteCartItemsByCart cid =>
      { db with cartItems := db.cartItems.filter (fun ci => ci.cartId != cid) }
  | DbStep.deleteCartItemsByUser uid =>
      { db with cartItems :=
          db.cartItems.filter (fun ci => !(cartBelongsToUser db uid ci.cartId)) }
  | DbStep.createReviewRow r => { db with reviews := db.reviews ++ [r] }
  | DbStep.setOrderStatus oid s =>
      let upd := fun (o : Order) => if o.id == oid then { o with status := s } else o
      { db with orders := db.orders.map upd }

/-- Commit one transaction: all of its steps are applied. -/
def applyTxn (db : DB) (t : List DbStep) : DB := t.foldl applyStep db

/-- Commit a sequence of transactions in order. -/
def runTxns (db : DB) (ts : List (List DbStep)) : DB := ts.foldl applyTxn db

/-- Next serial id for a table. -/
def freshId (ids : List Int) : Int := ids.foldl max 0 + 1

/-- The `OrderItem` rows a nested `items: {create: itemsData}` produces. -/
def mkOrderItems (oid base : Int) : List ItemData → List OrderItem
  | [] => []
  | d :: ds =>
    ⟨base, oid, d.furnitureId, d.quantity, d.unitPrice⟩ ::
      mkOrderItems oid (base + 1) ds

/-- The furniture-existence validation block shared verbatim by `placeOrder`
and `createOrder`: fetch the rows whose id is in the request, and fail with
404 naming the missing ids when the counts differ. -/
def furnitureLookup (db : DB) (fids : List Int) : Except ApiErr (List Furniture) :=
  let lst := db.furnitures.filter (fun f => fids.contains f.id)
  if lst.length != fids.length then
    Except.error (notFoundMissing
      (fids.filter (fun i => !((lst.map (·.id)).contains i))))
  else
    Except.ok lst

/-- `itemsData` built from the explicit request items and the fetched
furniture rows (`furnitureMap.get`, skipping absent entries). -/
def directItemsData (lst : List Furniture) (ds : List DirectItem) : List ItemData :=
  ds.filterMap (fun d =>
    (lst.find? (fun f => f.id == d.furnitureId)).map
      (fun f => ⟨d.furnitureId, d.quantity, f.price⟩))

/-- `total += unitPrice * item.quantity` accumulated over `itemsData`. -/
def totalOf (itemsData : List ItemData) : ℚ :=
  (itemsData.map (fun d => d.unitPrice * (d.quantity : ℚ))).sum

/-- The value a successful order-creating handler returns and commits: the
created order row, its item rows, and the committed transactions. -/
structure OpResult where
  order : Order
  items : List OrderItem
  txns : List (List DbStep)
  deriving Repr, DecidableEq

/-- The cart-based branch of `placeOrder`: load the user's cart with its
items (joined to their furniture rows), rejecting a missing or empty cart;
the `true` flag records `shouldClearCart = true`. -/
def cartPathItems (db : DB) (uid : Int) : Except ApiErr (List ItemData × Bool) :=
  match db.carts.find? (fun c => c.userId == uid) with
  | none => Except.error (badRequest "Cart is empty and no items provided")
  | some cart =>
    let cis := db.cartItems.filter (fun ci => ci.cartId == cart.id)
    if cis.length == 0 then
      Except.error (badRequest "Cart is empty and no items provided")
    else
      Except.ok (cis.filterMap (fun ci =>
        (db.furnitures.find? (fun f => f.id == ci.furnitureId)).map
          (fun f => ⟨ci.furnitureId, ci.quantity, f.price⟩)), true)

/-- Item collection of `placeOrder`: the direct branch when a non-empty
items array is supplied, the cart branch otherwise. -/
def pathItems (db : DB) (uid : Int) (directItems : Option (List DirectItem)) :
    Except ApiErr (List ItemData × Bool) :=
  match directItems with
  | some ds =>
    if 0 < ds.length then
      match furnitureLookup db (ds.map (·.furnitureId)) with
      | Except.error e => Except.error e
      | Except.ok lst => Except.ok (directItemsData lst ds, false)
    else cartPathItems db uid
  | none => cartPathItems db uid

/-- `POST /api/checkout/place` (`placeOrder` of the checkout controller).
The order and its items are created in one statement (one transaction); the
cart-clear of a cart-sourced checkout is a separate second statement. -/
def placeOrder (db : DB) (user : Option Int)
    (directItems : Option (List DirectItem)) : Except ApiErr OpResult :=
  match user with
  | none => Except.error (unauthorizedErr "Authentication required for checkout")
  | some uid =>
    match pathItems db uid directItems with
    | Except.error e => Except.error e
    | Except.ok (itemsData, shouldClear) =>
      if itemsData.length == 0 then Except.error (badRequest "No items to order")
      else
        let o : Order := ⟨freshId (db.orders.map (·.id)), some uid,
          totalOf itemsData, OrderStatus.COMPLETED⟩
        let ois := mkOrderItems o.id (freshId (db.orderItems.map (·.id))) itemsData
        let t1 : List DbStep :=
          DbStep.createOrderRow o :: ois.map DbStep.createOrderItemRow
        if shouldClear then
          match (applyTxn db t1).carts.find? (fun c => c.userId == uid) with
          | some cart =>
            Except.ok ⟨o, ois, [t1, [DbStep.deleteCartItemsByCart cart.id]]⟩
          | none => Except.ok ⟨o, ois, [t1]⟩
        else Except.ok ⟨o, ois, [t1]⟩

/-- The `finalUserId` existence check of `createOrder`: verify an
authenticated user's row exists; a guest passes. -/
def checkUser (db : DB) (user : Option Int) : Except ApiErr Unit :=
  match user with
  | some uid =>
    if db.users.contains uid then Except.ok ()
    else Except.error (notFound "User not found")
  | none => Except.ok ()

/-- The conditional `tx.cartItem.deleteMany({where: {cart: {userId}}})` step
of `createOrder`: present exactly when a user is authenticated. -/
def clearStepFor : Option Int → List DbStep
  | some uid => [DbStep.deleteCartItemsByUser uid]
  | none => []

/-- `POST /api/orders` (`createOrder` of the order controller).  The order
creation and the unconditional cart-clear for an authenticated user are
wrapped in one `prisma.$transaction`, i.e. one transaction here. -/
def createOrder (db : DB) (user : Option Int) (items : List DirectItem)
    (guestInfo : Option String) : Except ApiErr OpResult :=
  if items.length == 0 then
    Except.error (badRequest "Order must contain at least one item")
  else if user == none && guestInfo == none then
    Except.error (badRequest "Either authentication or guest information must be provided")
  else
    match checkUser db user with
    | Except.error e => Except.error e
    | Except.ok _ =>
      match furnitureLookup db (items.map (·.furnitureId)) with
      | Except.error e => Except.error e
      | Except.ok lst =>
        let itemsData := directItemsData lst items
        let o : Order := ⟨freshId (db.orders.map (·.id)), user,
          totalOf itemsData, OrderStatus.PENDING⟩
        let ois := mkOrderItems o.id (freshId (db.orderItems.map (·.id))) itemsData
        let t : List DbStep :=
          DbStep.createOrderRow o :: ois.map DbStep.createOrderItemRow ++
            clearStepFor user
        Except.ok ⟨o, ois, [t]⟩

/-- `PATCH /api/orders/:id/status` (`updateOrderStatus`): guard terminal
statuses, then update the row. -/
def updateOrderStatus (db : DB) (oid : Int) (status : OrderStatus) :
    Except ApiErr DB :=
  match db.orders.find? (fun o => o.id == oid) with
  | none => Except.error (notFound "Order not found")
  | some o =>
    if o.status == OrderStatus.COMPLETED && status != OrderStatus.COMPLETED then
      Except.error (badRequest "Cannot change status of completed order")
    else if o.status == OrderStatus.CANCELLED && status != OrderStatus.CANCELLED then
      Except.error (badRequest "Cannot change status of cancelled order")
    else
      Except.ok (applyStep db (DbStep.setOrderStatus oid status))

/-- The state an order-status request leaves behind: unchanged on error. -/
def runUpdateOrderStatus (db : DB) (oid : Int) (status : OrderStatus) : DB :=
  match updateOrderStatus db oid status with
  | Except.ok db' => db'
  | Except.error _ => db

/-- `findFirst` purchase check of the review controller: an order item for
this furniture inside a COMPLETED order of this user. -/
def hasPurchased (db : DB) (uid fid : Int) : Bool :=
  db.orderItems.any (fun oi => oi.furnitureId == fid &&
    ((db.orders.find? (fun o => o.id == oi.orderId)).map
      (fun o => o.userId == some uid && o.status == OrderStatus.COMPLETED)).getD false)

/-- `findUnique` on the `(userId, furnitureId)` unique key of `Review`. -/
def findReviewByPair (db : DB) (uid fid : Int) : Option Review :=
  db.reviews.find? (fun r => r.userId == uid && r.furnitureId == fid)

/-- `POST /api/reviews` (`createReview`): zod-validate the rating, check the
user and furniture exist, require a completed purchase, reject a duplicate
review for the same `(user, furniture)` pair, then create the row. -/
def createReview (db : DB) (fid uid rating : Int) (comment : Option String) :
    Except ApiErr (DB × Review) :=
  if !(1 ≤ rating && rating ≤ 5) then
    Except.error (badRequest "Validation failed")
  else if !(db.users.contains uid) then
    Except.error (notFound "User not found")
  else if !(db.furnitures.any (fun f => f.id == fid)) then
    Except.error (notFound "Furniture not found")
  else if !(hasPurchased db uid fid) then
    Except.error (forbiddenErr "You can only review furniture items you have purchased")
  else
    match findReviewByPair db uid fid with
    | some _ =>
      Except.error (badRequest "You have already reviewed this furniture item")
    | none =>
      let r : Review := ⟨freshId (db.reviews.map (·.id)), uid, fid, rating, comment⟩
      Except.ok (applyStep db (DbStep.createReviewRow r), r)

/-- The state a review-creation request leaves behind: unchanged on error. -/
def runCreateReview (db : DB) (fid uid rating : Int) (comment : Option String) : DB :=
  match createReview db fid uid rating comment with
  | Except.ok (db', _) => db'
  | Except.error _ => db

/-- The state a checkout request leaves behind: unchanged on error. -/
def runPlaceOrder (db : DB) (user : Option Int)
    (directItems : Option (List DirectItem)) : DB :=
  match placeOrder db user directItems with
  | Except.ok r => runTxns db r.txns
  | Except.error _ => db

/-- The state a generic order-creation request leaves behind. -/
def runCreateOrder (db : DB) (user : Option Int) (items : List DirectItem)
    (guestInfo : Option String) : DB :=
  match createOrder db user items guestInfo with
  | Except.ok r => runTxns db r.txns
  | Except.error _ => db

/-! ### General lemmas about the query combinators -/

theorem insertLe_perm (le : α → α → Bool) (a : α) (l : List α) :
    List.Perm (insertLe le a l) (a :: l) := by
  induction l with
  | nil => exact List.Perm.refl _
  | cons b bs ih =>
    unfold insertLe
    split
    · exact List.Perm.refl _
    · exact (List.Perm.cons b ih).trans (List.Perm.swap a b bs)

theorem isort_perm (le : α → α → Bool) (l : List α) : List.Perm (isort le l) l := by
  induction l with
  | nil => exact List.Perm.refl _
  | cons a as ih => exact (insertLe_perm le a (isort le as)).trans (List.Perm.cons a ih)

theorem mem_of_mem_furnitureQuery {db : DB} {pred : Furniture → Bool}
    {le : Furniture → Furniture → Bool} {n : Nat} {x : Furniture}
    (hx : x ∈ furnitureQuery db pred le n) :
    x ∈ db.furnitures ∧ pred x = true := by
  unfold furnitureQuery at hx
  have h1 : x ∈ isort le (db.furnitures.filter pred) := List.take_subset n _ hx
  have h2 : x ∈ db.furnitures.filter pred := ((isort_perm le _).mem_iff).1 h1
  exact ⟨List.mem_of_mem_filter h2, List.of_mem_filter h2⟩

theorem furnitureQuery_length_le (db : DB) (pred : Furniture → Bool)
    (le : Furniture → Furniture → Bool) (n : Nat) :
    (furnitureQuery db pred le n).length ≤ n := by
  unfold furnitureQuery
  exact (List.length_take _ _).le.trans (Nat.min_le_left _ _)

theorem furnitureQuery_ids_nodup {db : DB}
    (h : (db.furnitures.map (·.id)).Nodup) (pred : Furniture → Bool)
    (le : Furniture → Furniture → Bool) (n : Nat) :
    ((furnitureQuery db pred le n).map (·.id)).Nodup := by
  unfold furnitureQuery
  have h1 : ((db.furnitures.filter pred).map (·.id)).Nodup :=
    h.sublist (List.Sublist.map _ (List.filter_sublist _))
  have h2 : ((isort le (db.furnitures.filter pred)).map (·.id)).Nodup :=
    (((isort_perm le _).map (·.id)).nodup_iff).2 h1
  exact h2.sublist (List.Sublist.map _ (List.take_sublist _ _))

theorem idsOf_map_enrich (db : DB) (l : List Furniture) :
    idsOf (l.map (enrichFurniture db)) = l.map (·.id) := by
  unfold idsOf
  rw [List.map_map]
  rfl

theorem idsOf_map_enrichPopular (db : DB) (l : List Furniture) :
    idsOf (l.map (enrichPopular db)) = l.map (·.id) := by
  unfold idsOf
  rw [List.map_map]
  rfl

theorem not_mem_of_contains_eq_false {l : List Int} {a : Int}
    (h : l.contains a = false) : a ∉ l := by
  intro hmem
  have h2 : l.contains a = true := List.elem_eq_true_of_mem hmem
  rw [h2] at h
  cases h

/-- A contains-check against the exclusion list rules out the base list. -/
theorem not_mem_base_of_excludeIdsFor {excl : Option Int} {base : List Int}
    {a : Int} (h : (excludeIdsFor excl base).contains a = false) : a ∉ base := by
  cases excl with
  | some e =>
    intro hm
    exact not_mem_of_contains_eq_false h (List.mem_append_left _ hm)
  | none => exact not_mem_of_contains_eq_false h

/-- Updating the status of the order found by `find?` updates exactly the
found row in the mapped list. -/
theorem find?_map_setStatus (l : List Order) (oid : Int) (s : OrderStatus)
    (o : Order) (h : l.find? (fun o' => o'.id == oid) = some o) :
    (l.map (fun o' => if o'.id == oid then { o' with status := s } else o')).find?
      (fun o' => o'.id == oid) = some { o with status := s } := by
  induction l with
  | nil => simp [List.find?] at h
  | cons a as ih =>
    cases hpa : (a.id == oid) with
    | true =>
      simp only [List.find?, hpa] at h
      cases h
      simp [List.find?, hpa]
    | false =>
      simp only [List.find?, hpa] at h
      simpa [List.find?, hpa] using ih h

/-! ### C4: order-status transition guard -/

/-- C4: for an existing order, a transition out of COMPLETED or CANCELLED to
any other value fails with BadRequest and leaves the stored status
unchanged; from PENDING, transitions to COMPLETED and to CANCELLED succeed
and store the new status. -/
theorem updateOrderStatus_transition_guard (db : DB) (oid : Int)
    (s : OrderStatus) (o : Order)
    (h : db.orders.find? (fun o' => o'.id == oid) = some o) :
    (o.status = OrderStatus.COMPLETED → s ≠ OrderStatus.COMPLETED →
      updateOrderStatus db oid s =
        Except.error (badRequest "Cannot change status of completed order") ∧
      runUpdateOrderStatus db oid s = db) ∧
    (o.status = OrderStatus.CANCELLED → s ≠ OrderStatus.CANCELLED →
      updateOrderStatus db oid s =
        Except.error (badRequest "Cannot change status of cancelled order") ∧
      runUpdateOrderStatus db oid s = db) ∧
    (o.status = OrderStatus.PENDING →
      (s = OrderStatus.COMPLETED ∨ s = OrderStatus.CANCELLED) →
      ∃ db', updateOrderStatus db oid s = Except.ok db' ∧
        db'.orders.find? (fun o' => o'.id == oid) = some { o with status := s }) := by
  refine ⟨?_, ?_, ?_⟩
  · intro hc hs
    have hguard : (o.status == OrderStatus.COMPLETED && s != OrderStatus.COMPLETED) = true := by
      simp [hc, bne, hs]
    have : updateOrderStatus db oid s =
        Except.error (badRequest "Cannot change status of completed order") := by
      unfold updateOrderStatus
      rw [h]
      simp [hguard]
    exact ⟨this, by unfold runUpdateOrderStatus; rw [this]⟩
  · intro hc hs
    have hguard1 : (o.status == OrderStatus.COMPLETED && s != OrderStatus.COMPLETED) = false := by
      simp [hc]
    have hguard2 : (o.status == OrderStatus.CANCELLED && s != OrderStatus.CANCELLED) = true := by
      simp [hc, bne, hs]
    have : updateOrderStatus db oid s =
        Except.error (badRequest "Cannot change status of cancelled order") := by
      unfold updateOrderStatus
      rw [h]
      simp [hguard1, hguard2]
    exact ⟨this, by unfold runUpdateOrderStatus; rw [this]⟩
  · intro hp _
    refine ⟨applyStep db (DbStep.setOrderStatus oid s), ?_, ?_⟩
    · unfold updateOrderStatus
      rw [h]
      simp [hp]
    · show (applyStep db (DbStep.setOrderStatus oid s)).orders.find? _ = _
      unfold applyStep
      exact find?_map_setStatus db.orders oid s o h

/-- Witness for C4 at a concrete database: a COMPLETED order rejects a
CANCELLED transition with 400 and a PENDING order accepts COMPLETED. -/
theorem updateOrderStatus_transition_guard_witness :
    (updateOrderStatus
        ⟨[1], [], [], [], [], [], [⟨7, some 1, 10, OrderStatus.COMPLETED⟩], []⟩ 7
        OrderStatus.CANCELLED =
      Except.error (badRequest "Cannot change status of completed order")) ∧
    (∃ db', updateOrderStatus
        ⟨[1], [], [], [], [], [], [⟨8, some 1, 10, OrderStatus.PENDING⟩], []⟩ 8
        OrderStatus.COMPLETED = Except.ok db' ∧
      db'.orders.find? (fun o' => o'.id == (8 : Int)) =
        some ⟨8, some 1, 10, OrderStatus.COMPLETED⟩) := by
  constructor
  · exact ((updateOrderStatus_transition_guard _ 7 OrderStatus.CANCELLED
      ⟨7, some 1, 10, OrderStatus.COMPLETED⟩ (by decide)).1 rfl (by decide)).1
  · exact (updateOrderStatus_transition_guard _ 8 OrderStatus.COMPLETED
      ⟨8, some 1, 10, OrderStatus.PENDING⟩ (by decide)).2.2 rfl (Or.inl rfl)

/-! ### C6: the rating aggregator -/

/-- `averageRating` is `null` exactly when the furniture has no reviews. -/
theorem averageRatingOf_eq_none_iff (db : DB) (fid : Int) :
    averageRatingOf db fid = none ↔ ratingsFor db fid = [] := by
  unfold averageRatingOf
  by_cases hlen : 0 < (ratingsFor db fid).length
  · simp only [hlen, if_true]
    constructor
    · intro hc
      exact absurd hc (by simp)
    · intro hnil
      rw [hnil] at hlen
      simp at hlen
  · simp only [hlen, if_false]
    have : (ratingsFor db fid).length = 0 := Nat.eq_zero_of_not_pos hlen
    simp [List.length_eq_zero.mp this]

/-- C6 amended: for every furniture serialization, `averageRating` is the
arithmetic mean of the associated reviews' ratings and is `null` iff there
are zero reviews, and `reviewCount` is the number of reviews; every item of
the category recommendation response is an enrichment of a stored furniture
row with the raw review collection stripped (`EnrichedFurniture` carries no
review list); but the detail endpoint `GET /api/furnitures/:id` does NOT
strip the raw reviews: its successful payload satisfies the same aggregate
laws while still carrying the associated review rows. -/
theorem rating_aggregator_spec (db : DB) (f : Furniture) :
    ((enrichFurniture db f).reviewCount = (ratingsFor db f.id).length ∧
      (enrichFurniture db f).averageRating =
        (if 0 < (ratingsFor db f.id).length
          then some (((ratingsFor db f.id).sum : ℚ) / ((ratingsFor db f.id).length : ℚ))
          else none) ∧
      ((enrichFurniture db f).averageRating = none ↔ ratingsFor db f.id = []) ∧
      (enrichPopular db f).averageRating = (enrichFurniture db f).averageRating ∧
      (enrichPopular db f).reviewCount = (ratingsFor db f.id).length) ∧
    (∀ catId limitQ exclQ r,
      getCategoryRecommendations db catId limitQ exclQ = Except.ok r →
      ∀ x ∈ r.recommendations, ∃ f' ∈ db.furnitures, x = enrichFurniture db f') ∧
    (∀ i d, getFurniture db i = Except.ok d →
      d.reviewCount = (ratingsFor db i).length ∧
      d.averageRating =
        (if 0 < (ratingsFor db i).length
          then some (((ratingsFor db i).sum : ℚ) / ((ratingsFor db i).length : ℚ))
          else none) ∧
      (d.averageRating = none ↔ ratingsFor db i = []) ∧
      d.reviews = db.reviews.filter (fun rv => rv.furnitureId == i)) := by
  refine ⟨⟨rfl, rfl, averageRatingOf_eq_none_iff db f.id, rfl, rfl⟩, ?_, ?_⟩
  · intro catId limitQ exclQ r h x hx
    simp only [getCategoryRecommendations] at h
    by_cases h1 : limitRejected (parseLimit limitQ) = true
    · simp [h1] at h
    · simp only [h1, if_false, Bool.false_eq_true] at h
      by_cases h2 : (!db.categories.contains catId) = true
      · rw [if_pos h2] at h
        simp at h
      · rw [if_neg h2] at h
        cases hm : parseLimit limitQ with
        | nan => simp [hm] at h
        | int n =>
          simp only [hm, Except.ok.injEq] at h
          subst h
          simp only [List.mem_map] at hx
          obtain ⟨f', hf', rfl⟩ := hx
          exact ⟨f', (mem_of_mem_furnitureQuery hf').1, rfl⟩
  · intro i d h
    simp only [getFurniture] at h
    split at h
    · cases h
    · rename_i item hfind
      simp only [Except.ok.injEq] at h
      subst h
      refine ⟨?_, rfl, averageRatingOf_eq_none_iff db i, rfl⟩
      simp [ratingsFor]

/-- Concrete database for the C6 witness: furniture 5 with ratings 3 and 4. -/
def aggDb : DB :=
  ⟨[1], [10], [⟨5, 10, 100, 1⟩],
    [⟨1, 1, 5, 3, none⟩, ⟨2, 1, 5, 4, none⟩], [], [], [], []⟩

/-- The detail payload of `GET /api/furnitures/5` at `aggDb`, bound lazily
so that statements about its non-rational fields evaluate without forcing
the rational average. -/
def c6r : FurnitureDetail :=
  match getFurniture aggDb 5 with
  | Except.ok r => r
  | Except.error _ => ⟨0, 0, 0, 0, [], none, 0⟩

/-- Counterexample to C6 as stated: `GET /api/furnitures/:id` is a
furniture-returning response from which the raw per-review collection is NOT
stripped — at `aggDb` the detail response for furniture 5 succeeds and still
carries both raw review rows alongside `reviewCount = 2`. -/
theorem furniture_detail_keeps_reviews :
    getFurniture aggDb 5 = Except.ok c6r ∧
    c6r.reviews = [⟨1, 1, 5, 3, none⟩, ⟨2, 1, 5, 4, none⟩] ∧
    c6r.reviewCount = 2 ∧
    c6r.reviews ≠ [] := by
  refine ⟨rfl, rfl, rfl, ?_⟩
  intro hnil
  rw [show c6r.reviews = [⟨1, 1, 5, 3, none⟩, ⟨2, 1, 5, 4, none⟩] from rfl] at hnil
  cases hnil

/-- Witness for C6: at `aggDb`, furniture 5 has `reviewCount` 2, the single
category-response item is an enrichment of a stored row, and the detail
response keeps the raw review rows while its `reviewCount` matches them. -/
theorem rating_aggregator_spec_witness :
    ((enrichFurniture aggDb ⟨5, 10, 100, 1⟩).reviewCount =
      (ratingsFor aggDb (5 : Int)).length ∧
      (ratingsFor aggDb (5 : Int)).length = 2) ∧
    (∃ f' ∈ aggDb.furnitures,
      enrichFurniture aggDb ⟨5, 10, 100, 1⟩ = enrichFurniture aggDb f') ∧
    (c6r.reviews = aggDb.reviews.filter (fun rv => rv.furnitureId == (5 : Int)) ∧
      c6r.reviewCount = (ratingsFor aggDb (5 : Int)).length) := by
  refine ⟨⟨(rating_aggregator_spec aggDb ⟨5, 10, 100, 1⟩).1.1, by decide⟩, ?_, ?_⟩
  · exact (rating_aggregator_spec aggDb ⟨5, 10, 100, 1⟩).2.1 10 none none
      ⟨[enrichFurniture aggDb ⟨5, 10, 100, 1⟩], "category-based"⟩ (by rfl)
      (enrichFurniture aggDb ⟨5, 10, 100, 1⟩) (by simp)
  · have h := (rating_aggregator_spec aggDb ⟨5, 10, 100, 1⟩).2.2 5 c6r rfl
    exact ⟨h.2.2.2, h.1⟩

/-! ### C5: similar-items strategy -/

/-- C5: with a valid limit and an existing reference furniture, every item
returned by the similar-items endpoint shares the reference item's category,
is not the reference item itself, and has a price within the symmetric ±30%
band around the reference price. -/
theorem similar_items_spec (db : DB) (furnitureId : Int) (limitQ : Option String)
    (n : Int) (cur : Furniture)
    (hn : parseLimit limitQ = JsNum.int n) (h1 : 1 ≤ n) (h50 : n ≤ 50)
    (hcur : db.furnitures.find? (fun f => f.id == furnitureId) = some cur) :
    ∃ r, getSimilarRecommendations db furnitureId limitQ = Except.ok r ∧
      r.algorithm = "content-based" ∧
      ∀ x ∈ r.recommendations,
        x.categoryId = cur.categoryId ∧ x.id ≠ furnitureId ∧
        cur.price - cur.price * (3 / 10 : ℚ) ≤ x.price ∧
        x.price ≤ cur.price + cur.price * (3 / 10 : ℚ) := by
  have hrej : limitRejected (parseLimit limitQ) = false := by
    rw [hn]
    unfold limitRejected
    simp only [decide_eq_false_iff_not, Bool.or_eq_false_iff, decide_eq_false_iff_not]
    omega
  refine ⟨⟨(furnitureQuery db
      (fun f => f.categoryId == cur.categoryId && f.id != furnitureId &&
        decide (cur.price - cur.price * (3 / 10 : ℚ) ≤ f.price) &&
        decide (f.price ≤ cur.price + cur.price * (3 / 10 : ℚ)))
      (rankLe db) n.toNat).map (enrichFurniture db), "content-based"⟩, ?_, rfl, ?_⟩
  · rw [hn] at hrej
    simp only [getSimilarRecommendations, hrej, Bool.false_eq_true, if_false, hcur, hn]
  · intro x hx
    simp only [List.mem_map] at hx
    obtain ⟨f', hf', rfl⟩ := hx
    have hp := (mem_of_mem_furnitureQuery hf').2
    simp only [Bool.and_eq_true, beq_iff_eq, bne_iff_ne, decide_eq_true_eq] at hp
    exact ⟨hp.1.1.1, hp.1.1.2, hp.1.2, hp.2⟩

/-- Concrete database for the C5 witness: reference furniture 1 at price 100,
candidate furniture 2 at price 120 in the same category. -/
def simDb : DB :=
  ⟨[1], [1], [⟨1, 1, 100, 1⟩, ⟨2, 1, 120, 2⟩], [], [], [], [], []⟩

/-- Witness for C5: the theorem applied at `simDb` with the default limit. -/
theorem similar_items_spec_witness :
    ∃ r, getSimilarRecommendations simDb 1 none = Except.ok r ∧
      r.algorithm = "content-based" ∧
      ∀ x ∈ r.recommendations,
        x.categoryId = (⟨1, 1, 100, 1⟩ : Furniture).categoryId ∧ x.id ≠ (1 : Int) ∧
        (⟨1, 1, 100, 1⟩ : Furniture).price -
            (⟨1, 1, 100, 1⟩ : Furniture).price * (3 / 10 : ℚ) ≤ x.price ∧
        x.price ≤ (⟨1, 1, 100, 1⟩ : Furniture).price +
            (⟨1, 1, 100, 1⟩ : Furniture).price * (3 / 10 : ℚ) :=
  similar_items_spec simDb 1 none 10 ⟨1, 1, 100, 1⟩ rfl (by decide) (by decide) (by decide)

/-! ### C7: user recommendations without purchase history -/

theorem truthyInt_some_of_ne_zero {e : Int} (hne : e ≠ 0) :
    truthyInt (some (JsNum.int e)) = some e := by
  unfold truthyInt
  simp [hne]

/-- C7: for a valid limit and an existing user with zero COMPLETED-order
purchases, the user recommendation endpoint labels the result `popular` and
a given (truthy, i.e. nonzero) excluded id never appears in the results. -/
theorem user_recs_no_history_popular (db : DB) (userId : Int)
    (limitQ excludeQ : Option String) (n : Int)
    (hn : parseLimit limitQ = JsNum.int n) (h1 : 1 ≤ n) (h50 : n ≤ 50)
    (hu : db.users.contains userId = true)
    (hhist : completedOrderItems db userId = []) :
    ∃ r, getUserRecommendations db userId limitQ excludeQ = Except.ok r ∧
      r.algorithm = "popular" ∧
      ∀ e, parseExcludeId excludeQ = some (JsNum.int e) → e ≠ 0 →
        ∀ x ∈ r.recommendations, x.id ≠ e := by
  have hrej : limitRejected (JsNum.int n) = false := by
    unfold limitRejected
    simp only [decide_eq_false_iff_not, Bool.or_eq_false_iff, decide_eq_false_iff_not]
    omega
  have hpos : 0 < n.toNat := by omega
  have htiers : hybridTiers db userId n.toNat (truthyInt (parseExcludeId excludeQ)) =
      ([], [], popularPart db n.toNat (truthyInt (parseExcludeId excludeQ)) []) := by
    unfold hybridTiers
    rw [hhist]
    simp [hpos, idsOf]
  refine ⟨⟨(popularPart db n.toNat (truthyInt (parseExcludeId excludeQ)) []).take n.toNat,
    "popular"⟩, ?_, rfl, ?_⟩
  · simp only [getUserRecommendations, hn, hrej, Bool.false_eq_true, if_false, hu,
      Bool.not_true, htiers, List.nil_append, hhist, List.length_nil, Nat.lt_irrefl,
      if_neg, Nat.not_lt_zero]
  · intro e he hne x hx
    have hx' : x ∈ popularPart db n.toNat (truthyInt (parseExcludeId excludeQ)) [] :=
      List.take_subset _ _ hx
    rw [he, truthyInt_some_of_ne_zero hne] at hx'
    unfold popularPart at hx'
    simp only [List.mem_map] at hx'
    obtain ⟨f', hf', rfl⟩ := hx'
    have hp := (mem_of_mem_furnitureQuery hf').2
    simp only [List.nil_append, Bool.not_eq_true'] at hp
    intro hcontra
    rw [show (enrichPopular db f').id = f'.id from rfl] at hcontra
    rw [hcontra] at hp
    exact not_mem_of_contains_eq_false hp (by simp [excludeIdsFor])

/-- Concrete database for the C7 witness: user 2 has no orders; furniture 5
and 7 exist. -/
def noHistDb : DB :=
  ⟨[2], [1], [⟨5, 1, 10, 1⟩, ⟨7, 1, 20, 2⟩], [], [], [], [], []⟩

/-- Witness for C7: the theorem applied at `noHistDb` with `excludeId=5`. -/
theorem user_recs_no_history_popular_witness :
    ∃ r, getUserRecommendations noHistDb 2 none (some "5") = Except.ok r ∧
      r.algorithm = "popular" ∧
      ∀ e, parseExcludeId (some "5") = some (JsNum.int e) → e ≠ 0 →
        ∀ x ∈ r.recommendations, x.id ≠ e :=
  user_recs_no_history_popular noHistDb 2 none (some "5") 10 rfl (by decide)
    (by decide) (by decide) (by decide)

/-! ### C8: limit validation on the four recommendation endpoints -/

theorem limitRejected_int_true {m : Int} (h : m < 1 ∨ 50 < m) :
    limitRejected (JsNum.int m) = true := by
  unfold limitRejected
  rcases h with h | h <;> simp [h]

/-- C8 amended: on each of the four recommendation endpoints, a limit that
parses to an integer outside [1,50] fails with BadRequest ("Limit must be
between 1 and 50") independently of the database state (hence before any
data query); an absent limit defaults to 10 and passes the range check.  A
limit that does not parse to a number becomes `NaN` and passes the range
guard: the popular endpoint (and the user endpoint for a user with purchase
history) then fails only at the data layer, where `take: NaN` raises
`PrismaClientValidationError`, mapped by the error handler to 400 "Invalid
data provided" — while the user endpoint for an existing user without
purchase history does not fail at all and answers with an empty `popular`
list. -/
theorem limit_validation_spec :
    (∀ db userId limitQ excludeQ m, parseLimit limitQ = JsNum.int m →
      (m < 1 ∨ 50 < m) →
      getUserRecommendations db userId limitQ excludeQ =
        Except.error (badRequest "Limit must be between 1 and 50")) ∧
    (∀ db limitQ excludeQ m, parseLimit limitQ = JsNum.int m →
      (m < 1 ∨ 50 < m) →
      getPopularItems db limitQ excludeQ =
        Except.error (badRequest "Limit must be between 1 and 50")) ∧
    (∀ db catId limitQ excludeQ m, parseLimit limitQ = JsNum.int m →
      (m < 1 ∨ 50 < m) →
      getCategoryRecommendations db catId limitQ excludeQ =
        Except.error (badRequest "Limit must be between 1 and 50")) ∧
    (∀ db fid limitQ m, parseLimit limitQ = JsNum.int m →
      (m < 1 ∨ 50 < m) →
      getSimilarRecommendations db fid limitQ =
        Except.error (badRequest "Limit must be between 1 and 50")) ∧
    (parseLimit none = JsNum.int 10 ∧ limitRejected (parseLimit none) = false) ∧
    (∀ db limitQ excludeQ, parseLimit limitQ = JsNum.nan →
      getPopularItems db limitQ excludeQ = Except.error prismaValidationError) ∧
    (∀ db userId limitQ excludeQ, parseLimit limitQ = JsNum.nan →
      db.users.contains userId = true →
      0 < (completedOrderItems db userId).length →
      getUserRecommendations db userId limitQ excludeQ =
        Except.error prismaValidationError) ∧
    (∀ db userId limitQ excludeQ, parseLimit limitQ = JsNum.nan →
      db.users.contains userId = true →
      completedOrderItems db userId = [] →
      getUserRecommendations db userId limitQ excludeQ =
        Except.ok ⟨[], "popular"⟩) ∧
    prismaValidationError.statusCode = 400 := by
  refine ⟨?_, ?_, ?_, ?_, ⟨rfl, rfl⟩, ?_, ?_, ?_, rfl⟩
  · intro db userId limitQ excludeQ m hm hout
    simp only [getUserRecommendations, hm, limitRejected_int_true hout, if_true]
  · intro db limitQ excludeQ m hm hout
    simp only [getPopularItems, hm, limitRejected_int_true hout, if_true]
  · intro db catId limitQ excludeQ m hm hout
    simp only [getCategoryRecommendations, hm, limitRejected_int_true hout, if_true]
  · intro db fid limitQ m hm hout
    simp only [getSimilarRecommendations, hm, limitRejected_int_true hout, if_true]
  · intro db limitQ excludeQ hm
    simp only [getPopularItems, hm, limitRejected, Bool.false_eq_true, if_false]
  · intro db userId limitQ excludeQ hm hu hh
    simp only [getUserRecommendations, hm, limitRejected, Bool.false_eq_true,
      if_false, hu, Bool.not_true]
    rw [if_pos hh]
  · intro db userId limitQ excludeQ hm hu hh
    simp only [getUserRecommendations, hm, limitRejected, Bool.false_eq_true,
      if_false, hu, Bool.not_true]
    rw [if_neg (by rw [hh]; exact Nat.lt_irrefl 0)]

/-- Tiny database used by the C8 witness and counterexample: user 1 exists
and has no purchase history. -/
def tinyDb : DB := ⟨[1], [1], [⟨1, 1, 10, 1⟩], [], [], [], [], []⟩

/-- Database for the history half of the C8 witness: user 1 bought furniture
1 via COMPLETED order 10. -/
def tinyHistDb : DB :=
  ⟨[1], [1], [⟨1, 1, 10, 1⟩], [], [], [],
    [⟨10, some 1, 10, OrderStatus.COMPLETED⟩], [⟨1, 10, 1, 1, 10⟩]⟩

/-- Witness for the amended C8: `limit=60` yields the range-guard 400 on the
popular endpoint, the absent limit defaults to 10, and a non-numeric limit
yields the error handler's 400 "Invalid data provided" on the popular
endpoint and on the user endpoint for a user with purchase history. -/
theorem limit_validation_spec_witness :
    (getPopularItems tinyDb (some "60") none =
      Except.error (badRequest "Limit must be between 1 and 50") ∧
      parseLimit none = JsNum.int 10) ∧
    getPopularItems tinyDb (some "abc") none =
      Except.error prismaValidationError ∧
    getUserRecommendations tinyHistDb 1 (some "abc") none =
      Except.error prismaValidationError :=
  ⟨⟨limit_validation_spec.2.1 tinyDb (some "60") none 60 rfl (Or.inr (by decide)),
    limit_validation_spec.2.2.2.2.1.1⟩,
    limit_validation_spec.2.2.2.2.2.1 tinyDb (some "abc") none rfl,
    limit_validation_spec.2.2.2.2.2.2.1 tinyHistDb 1 (some "abc") none rfl
      (by decide) (by decide)⟩

/-- Counterexample to C8 as stated: the limit string "abc" does not parse as
a number (`parseInt` gives `NaN`), yet no range-guard BadRequest is raised
before data access: `NaN` passes the `limit < 1 || limit > 50` check, the
user endpoint for an existing no-history user succeeds with an empty
`popular` list, and the category endpoint for an unknown category reaches
its existence check and answers NotFound instead of a limit BadRequest. -/
theorem limit_nan_passes_guard :
    parseLimit (some "abc") = JsNum.nan ∧
    limitRejected (parseLimit (some "abc")) = false ∧
    getUserRecommendations tinyDb 1 (some "abc") none =
      Except.ok ⟨[], "popular"⟩ ∧
    getCategoryRecommendations tinyDb 2 (some "abc") none =
      Except.error (notFound "Category not found") :=
  ⟨rfl, rfl, rfl, rfl⟩

/-! ### C9: review purchase-gating and per-pair uniqueness -/

theorem find?_append_none {p : α → Bool} {l₁ l₂ : List α} (h : l₁.find? p = none) :
    (l₁ ++ l₂).find? p = l₂.find? p := by
  induction l₁ with
  | nil => simp
  | cons a as ih =>
    cases hpa : p a with
    | true => simp [List.find?, hpa] at h
    | false =>
      simp only [List.find?, hpa] at h
      simpa [List.find?, hpa] using ih h

/-- A creation attempt for a pair that already has a review hits the
duplicate-review guard. -/
theorem createReview_duplicate (db2 : DB) (fid uid rating' : Int)
    (comment' : Option String) (r : Review)
    (hr' : (1 ≤ rating' && rating' ≤ 5) = true)
    (hu : db2.users.contains uid = true)
    (hf : db2.furnitures.any (fun f => f.id == fid) = true)
    (hpur : hasPurchased db2 uid fid = true)
    (hfind : findReviewByPair db2 uid fid = some r) :
    createReview db2 fid uid rating' comment' =
      Except.error (badRequest "You have already reviewed this furniture item") := by
  unfold createReview
  rw [if_neg (by simp [hr'])]
  rw [if_neg (by simpa using hu)]
  rw [if_neg (by simpa using hf)]
  rw [if_neg (by simp [hpur])]
  rw [hfind]

/-- After inserting a review for `(uid, fid)`, a further creation attempt for
the same pair hits the duplicate-review guard. -/
theorem createReview_after_insert (db : DB) (fid uid rating' : Int)
    (comment' : Option String) (r : Review)
    (hru : r.userId = uid) (hrf : r.furnitureId = fid)
    (hr' : (1 ≤ rating' && rating' ≤ 5) = true)
    (hu : db.users.contains uid = true)
    (hf : db.furnitures.any (fun f => f.id == fid) = true)
    (hpur : hasPurchased db uid fid = true)
    (hfind : findReviewByPair db uid fid = none) :
    createReview { db with reviews := db.reviews ++ [r] } fid uid rating' comment' =
      Except.error (badRequest "You have already reviewed this furniture item") := by
  have hfind' : findReviewByPair { db with reviews := db.reviews ++ [r] } uid fid =
      some r := by
    unfold findReviewByPair at hfind ⊢
    show (db.reviews ++ [r]).find? _ = some r
    rw [find?_append_none hfind]
    simp [List.find?, hru, hrf]
  exact createReview_duplicate { db with reviews := db.reviews ++ [r] } fid uid
    rating' comment' r hr' hu hf hpur hfind'

set_option maxHeartbeats 1000000 in
/-- C9: a review is created only when the user has a COMPLETED-order purchase
of the furniture (otherwise the request fails with 403 and writes nothing),
and after a successful creation any further creation attempt for the same
`(user, furniture)` pair fails with 400. -/
theorem review_purchase_gate_and_uniqueness (db : DB) (fid uid rating : Int)
    (comment : Option String) :
    ((1 ≤ rating && rating ≤ 5) = true → db.users.contains uid = true →
      db.furnitures.any (fun f => f.id == fid) = true →
      hasPurchased db uid fid = false →
      createReview db fid uid rating comment =
        Except.error
          (forbiddenErr "You can only review furniture items you have purchased") ∧
      runCreateReview db fid uid rating comment = db) ∧
    (∀ db' r, createReview db fid uid rating comment = Except.ok (db', r) →
      hasPurchased db uid fid = true ∧
      db'.reviews = db.reviews ++ [r] ∧ r.userId = uid ∧ r.furnitureId = fid ∧
      ∀ rating' comment', (1 ≤ rating' && rating' ≤ 5) = true →
        createReview db' fid uid rating' comment' =
          Except.error (badRequest "You have already reviewed this furniture item")) := by
  constructor
  · intro hr hu hf hnp
    have heq : createReview db fid uid rating comment =
        Except.error
          (forbiddenErr "You can only review furniture items you have purchased") := by
      unfold createReview
      rw [if_neg (by simp [hr])]
      rw [if_neg (by simpa using hu)]
      rw [if_neg (by simpa using hf)]
      rw [if_pos (by simp [hnp])]
    exact ⟨heq, by unfold runCreateReview; rw [heq]⟩
  · intro db' r h
    unfold createReview at h
    by_cases h1 : (!(1 ≤ rating && rating ≤ 5)) = true
    · rw [if_pos h1] at h
      simp at h
    · rw [if_neg h1] at h
      by_cases h2 : (!db.users.contains uid) = true
      · rw [if_pos h2] at h
        simp at h
      · rw [if_neg h2] at h
        by_cases h3 : (!db.furnitures.any (fun f => f.id == fid)) = true
        · rw [if_pos h3] at h
          simp at h
        · rw [if_neg h3] at h
          by_cases h4 : (!hasPurchased db uid fid) = true
          · rw [if_pos h4] at h
            simp at h
          · rw [if_neg h4] at h
            cases hfind : findReviewByPair db uid fid with
            | some r0 => rw [hfind] at h; simp at h
            | none =>
              rw [hfind] at h
              simp only [Except.ok.injEq, Prod.mk.injEq] at h
              obtain ⟨hdb', hr⟩ := h
              subst hdb'
              subst hr
              have hpur : hasPurchased db uid fid = true := by
                simpa using h4
              refine ⟨hpur, rfl, rfl, rfl, ?_⟩
              intro rating' comment' hr'
              have hu' : db.users.contains uid = true := by simpa using h2
              have hf' : db.furnitures.any (fun f => f.id == fid) = true := by
                simpa using h3
              have estep : applyStep db (DbStep.createReviewRow
                  ⟨freshId (db.reviews.map (·.id)), uid, fid, rating, comment⟩) =
                  { db with reviews := db.reviews ++
                    [⟨freshId (db.reviews.map (·.id)), uid, fid, rating, comment⟩] } := rfl
              rw [estep]
              exact createReview_after_insert db fid uid rating' comment'
                ⟨freshId (db.reviews.map (·.id)), uid, fid, rating, comment⟩
                rfl rfl hr' hu' hf' hpur hfind

/-- Concrete database for the C9 witness: user 1 purchased furniture 5 via a
COMPLETED order; user 1 has not purchased furniture 6. -/
def revDb : DB :=
  ⟨[1], [1], [⟨5, 1, 10, 1⟩, ⟨6, 1, 12, 2⟩], [], [], [],
    [⟨100, some 1, 10, OrderStatus.COMPLETED⟩], [⟨200, 100, 5, 1, 10⟩]⟩

/-- Witness for C9: at `revDb`, reviewing unpurchased furniture 6 fails with
403, and after successfully reviewing furniture 5 a second attempt fails
with 400. -/
theorem review_purchase_gate_and_uniqueness_witness :
    (createReview revDb 6 1 4 none =
      Except.error
        (forbiddenErr "You can only review furniture items you have purchased")) ∧
    (createReview (runCreateReview revDb 5 1 4 none) 5 1 3 none =
      Except.error (badRequest "You have already reviewed this furniture item")) := by
  constructor
  · exact ((review_purchase_gate_and_uniqueness revDb 6 1 4 none).1
      (by decide) (by decide) (by decide) (by decide)).1
  · exact ((review_purchase_gate_and_uniqueness revDb 5 1 4 none).2
      (runCreateReview revDb 5 1 4 none) ⟨1, 1, 5, 4, none⟩ (by decide)).2.2.2.2 3 none
      (by decide)

/-! ### Shape of successful order creations -/

/-- Anatomy of a successful `POST /api/orders`: the furniture validation
passed, the order row carries the accumulated total with status PENDING, and
everything is committed in one transaction, ending (for an authenticated
user) with the cart-clearing step. -/
theorem createOrder_ok_shape (db : DB) (user : Option Int)
    (items : List DirectItem) (guestInfo : Option String) (r : OpResult)
    (h : createOrder db user items guestInfo = Except.ok r) :
    ∃ lst, furnitureLookup db (items.map (·.furnitureId)) = Except.ok lst ∧
      r = ⟨⟨freshId (db.orders.map (·.id)), user,
          totalOf (directItemsData lst items), OrderStatus.PENDING⟩,
        mkOrderItems (freshId (db.orders.map (·.id)))
          (freshId (db.orderItems.map (·.id))) (directItemsData lst items),
        [DbStep.createOrderRow ⟨freshId (db.orders.map (·.id)), user,
            totalOf (directItemsData lst items), OrderStatus.PENDING⟩ ::
          (mkOrderItems (freshId (db.orders.map (·.id)))
            (freshId (db.orderItems.map (·.id))) (directItemsData lst items)).map
              DbStep.createOrderItemRow ++
          clearStepFor user]⟩ := by
  unfold createOrder at h
  by_cases h0 : (items.length == 0) = true
  · rw [if_pos h0] at h
    simp at h
  · rw [if_neg h0] at h
    by_cases h1 : (user == none && guestInfo == none) = true
    · rw [if_pos h1] at h
      simp at h
    · rw [if_neg h1] at h
      cases hck : checkUser db user with
      | error e =>
        rw [hck] at h
        simp at h
      | ok u =>
        rw [hck] at h
        cases hlk : furnitureLookup db (items.map (·.furnitureId)) with
        | error e =>
          rw [hlk] at h
          simp at h
        | ok lst =>
          rw [hlk] at h
          simp only [Except.ok.injEq] at h
          exact ⟨lst, rfl, h.symm⟩

/-- The order/order-item creation steps never touch carts or cart items. -/
theorem applyTxn_createSteps_frame (db : DB) (o : Order) (ois : List OrderItem) :
    (applyTxn db (DbStep.createOrderRow o :: ois.map DbStep.createOrderItemRow)).carts
        = db.carts ∧
    (applyTxn db (DbStep.createOrderRow o :: ois.map DbStep.createOrderItemRow)).cartItems
        = db.cartItems := by
  have main : ∀ (d : DB) (l : List OrderItem),
      (applyTxn d (l.map DbStep.createOrderItemRow)).carts = d.carts ∧
      (applyTxn d (l.map DbStep.createOrderItemRow)).cartItems = d.cartItems := by
    intro d l
    induction l generalizing d with
    | nil => exact ⟨rfl, rfl⟩
    | cons oi ois ih => exact ih (applyStep d (DbStep.createOrderItemRow oi))
  exact main (applyStep db (DbStep.createOrderRow o)) ois

theorem filter_not_filter_eq_nil (p : α → Bool) (l : List α) :
    ((l.filter (fun a => !(p a))).filter p) = [] := by
  induction l with
  | nil => rfl
  | cons a as ih =>
    cases hpa : p a with
    | true => simp [List.filter_cons, hpa, ih]
    | false => simp [List.filter_cons, hpa, ih]

/-- The cart items of a user's cart. -/
def userCartItems (db : DB) (uid : Int) : List CartItem :=
  db.cartItems.filter (fun ci => cartBelongsToUser db uid ci.cartId)

theorem cartBelongsToUser_congr {db db' : DB} (h : db'.carts = db.carts)
    (uid cid : Int) : cartBelongsToUser db' uid cid = cartBelongsToUser db uid cid := by
  unfold cartBelongsToUser
  rw [h]

/-- Deleting a user's cart items leaves that user's cart empty. -/
theorem userCartItems_after_deleteByUser (db1 : DB) (uid : Int) :
    userCartItems (applyStep db1 (DbStep.deleteCartItemsByUser uid)) uid = [] := by
  have hcarts : (applyStep db1 (DbStep.deleteCartItemsByUser uid)).carts = db1.carts := rfl
  have hitems : (applyStep db1 (DbStep.deleteCartItemsByUser uid)).cartItems =
      db1.cartItems.filter (fun ci => !(cartBelongsToUser db1 uid ci.cartId)) := rfl
  unfold userCartItems
  rw [hitems]
  calc (db1.cartItems.filter (fun ci => !(cartBelongsToUser db1 uid ci.cartId))).filter
        (fun ci => cartBelongsToUser (applyStep db1 (DbStep.deleteCartItemsByUser uid))
          uid ci.cartId)
      = (db1.cartItems.filter (fun ci => !(cartBelongsToUser db1 uid ci.cartId))).filter
        (fun ci => cartBelongsToUser db1 uid ci.cartId) := by
        apply List.filter_congr
        intro ci _
        exact cartBelongsToUser_congr hcarts uid ci.cartId
    _ = [] := filter_not_filter_eq_nil _ _

/-! ### C10: explicit-items orders still clear the cart -/

/-- C10: a successful `POST /api/orders` by an authenticated user with an
explicit items array commits one single transaction containing both the
order creation and the deletion of all of the user's CartItems, and the
resulting state has no cart items left in the user's cart. -/
theorem createOrder_explicit_items_clears_cart (db : DB) (uid : Int)
    (items : List DirectItem) (guestInfo : Option String) (r : OpResult)
    (h : createOrder db (some uid) items guestInfo = Except.ok r) :
    (∃ t, r.txns = [t] ∧ DbStep.deleteCartItemsByUser uid ∈ t ∧
      DbStep.createOrderRow r.order ∈ t) ∧
    userCartItems (runTxns db r.txns) uid = [] := by
  obtain ⟨lst, hlk, hr⟩ := createOrder_ok_shape db (some uid) items guestInfo r h
  subst hr
  constructor
  · refine ⟨_, rfl, ?_, List.mem_cons_self _ _⟩
    exact List.mem_cons_of_mem _ (List.mem_append_right _ (List.mem_singleton.mpr rfl))
  · show userCartItems (applyTxn db
      (DbStep.createOrderRow _ :: (mkOrderItems _ _ _).map DbStep.createOrderItemRow ++
        clearStepFor (some uid))) uid = []
    rw [show (DbStep.createOrderRow (⟨freshId (db.orders.map (·.id)), some uid,
        totalOf (directItemsData lst items), OrderStatus.PENDING⟩ : Order) ::
        (mkOrderItems (freshId (db.orders.map (·.id)))
          (freshId (db.orderItems.map (·.id))) (directItemsData lst items)).map
            DbStep.createOrderItemRow ++ clearStepFor (some uid)) =
        ((DbStep.createOrderRow (⟨freshId (db.orders.map (·.id)), some uid,
          totalOf (directItemsData lst items), OrderStatus.PENDING⟩ : Order) ::
          (mkOrderItems (freshId (db.orders.map (·.id)))
            (freshId (db.orderItems.map (·.id))) (directItemsData lst items)).map
              DbStep.createOrderItemRow) ++ [DbStep.deleteCartItemsByUser uid])
        from rfl]
    unfold applyTxn
    rw [List.foldl_append]
    exact userCartItems_after_deleteByUser _ uid

/-- Concrete database for the C10 witness: user 1 has cart 1 with an item;
the explicit order references furniture 5. -/
def cartDb : DB :=
  ⟨[1], [1], [⟨5, 1, 10, 1⟩, ⟨6, 1, 12, 2⟩], [], [⟨1, 1⟩], [⟨1, 1, 6, 3⟩], [], []⟩

/-- The successful result of the C10 witness order (evaluated lazily so that
no exact rational arithmetic needs to be reduced by `decide`). -/
def c10r : OpResult :=
  match createOrder cartDb (some 1) [⟨5, 2⟩] none with
  | Except.ok r => r
  | Except.error _ => ⟨⟨0, none, 0, OrderStatus.PENDING⟩, [], []⟩

/-- Witness for C10: an explicit-items order by user 1 on `cartDb` leaves
user 1's cart empty even though the order did not come from the cart. -/
theorem createOrder_explicit_items_clears_cart_witness :
    (∃ t, c10r.txns = [t] ∧ DbStep.deleteCartItemsByUser 1 ∈ t ∧
      DbStep.createOrderRow c10r.order ∈ t) ∧
    userCartItems (runTxns cartDb c10r.txns) 1 = [] :=
  createOrder_explicit_items_clears_cart cartDb 1 [⟨5, 2⟩] none c10r rfl

/-! ### C3: totals, price snapshots and missing furniture ids -/

theorem mkOrderItems_total (oid base : Int) (l : List ItemData) :
    ((mkOrderItems oid base l).map (fun oi => oi.unitPrice * (oi.quantity : ℚ))).sum
      = totalOf l := by
  induction l generalizing base with
  | nil => rfl
  | cons d ds ih =>
    simp only [mkOrderItems, List.map_cons, List.sum_cons, totalOf, ih]

theorem mem_mkOrderItems {oid base : Int} {l : List ItemData} {oi : OrderItem}
    (h : oi ∈ mkOrderItems oid base l) :
    ∃ d ∈ l, oi.furnitureId = d.furnitureId ∧ oi.quantity = d.quantity ∧
      oi.unitPrice = d.unitPrice := by
  induction l generalizing base with
  | nil => simp [mkOrderItems] at h
  | cons d ds ih =>
    simp only [mkOrderItems, List.mem_cons] at h
    rcases h with h | h
    · subst h
      exact ⟨d, List.mem_cons_self _ _, rfl, rfl, rfl⟩
    · obtain ⟨d', hd', h1, h2, h3⟩ := ih h
      exact ⟨d', List.mem_cons_of_mem _ hd', h1, h2, h3⟩

theorem furnitureLookup_ok_sub {db : DB} {fids : List Int} {lst : List Furniture}
    (h : furnitureLookup db fids = Except.ok lst) :
    lst = db.furnitures.filter (fun f => fids.contains f.id) := by
  unfold furnitureLookup at h
  by_cases hg : ((db.furnitures.filter (fun f => fids.contains f.id)).length
      != fids.length) = true
  · rw [if_pos hg] at h
    simp at h
  · rw [if_neg hg] at h
    simp only [Except.ok.injEq] at h
    exact h.symm

theorem mem_directItemsData {lst : List Furniture} {ds : List DirectItem}
    {d : ItemData} (h : d ∈ directItemsData lst ds) :
    ∃ f ∈ lst, f.id = d.furnitureId ∧ d.unitPrice = f.price := by
  unfold directItemsData at h
  simp only [List.mem_filterMap] at h
  obtain ⟨di, _, hmap⟩ := h
  cases hf : lst.find? (fun f => f.id == di.furnitureId) with
  | none =>
    rw [hf] at hmap
    simp at hmap
  | some f =>
    rw [hf] at hmap
    simp only [Option.map_some', Option.some.injEq] at hmap
    subst hmap
    have hfm : f ∈ lst := List.mem_of_find?_eq_some hf
    have hfid := List.find?_some hf
    simp only [beq_iff_eq] at hfid
    exact ⟨f, hfm, hfid, rfl⟩

theorem cartPathItems_snapshot {db : DB} {uid : Int} {itemsData : List ItemData}
    {sc : Bool} (h : cartPathItems db uid = Except.ok (itemsData, sc)) :
    ∀ d ∈ itemsData, ∃ f ∈ db.furnitures, f.id = d.furnitureId ∧
      d.unitPrice = f.price := by
  unfold cartPathItems at h
  split at h
  · simp at h
  · dsimp only at h
    split at h
    · simp at h
    · simp only [Except.ok.injEq, Prod.mk.injEq] at h
      obtain ⟨hid, -⟩ := h
      subst hid
      intro d hd
      simp only [List.mem_filterMap] at hd
      obtain ⟨ci, _, hmap⟩ := hd
      cases hf : db.furnitures.find? (fun f => f.id == ci.furnitureId) with
      | none =>
        rw [hf] at hmap
        simp at hmap
      | some f =>
        rw [hf] at hmap
        simp only [Option.map_some', Option.some.injEq] at hmap
        subst hmap
        have hfm : f ∈ db.furnitures := List.mem_of_find?_eq_some hf
        have hfid := List.find?_some hf
        simp only [beq_iff_eq] at hfid
        exact ⟨f, hfm, hfid, rfl⟩

theorem pathItems_snapshot {db : DB} {uid : Int} {di : Option (List DirectItem)}
    {itemsData : List ItemData} {sc : Bool}
    (h : pathItems db uid di = Except.ok (itemsData, sc)) :
    ∀ d ∈ itemsData, ∃ f ∈ db.furnitures, f.id = d.furnitureId ∧
      d.unitPrice = f.price := by
  unfold pathItems at h
  split at h
  · split at h
    · split at h
      · simp at h
      · rename_i ds hlen lst hlk
        simp only [Except.ok.injEq, Prod.mk.injEq] at h
        obtain ⟨hid, -⟩ := h
        subst hid
        intro d hd
        obtain ⟨f, hf, h1, h2⟩ := mem_directItemsData hd
        have hfm : f ∈ db.furnitures := by
          rw [furnitureLookup_ok_sub hlk] at hf
          exact List.mem_of_mem_filter hf
        exact ⟨f, hfm, h1, h2⟩
    · exact cartPathItems_snapshot h
  · exact cartPathItems_snapshot h

/-- Anatomy of a successful checkout: the authenticated user's collected
items, the COMPLETED order with the accumulated total, and one or two
committed transactions. -/
theorem placeOrder_ok_parts (db : DB) (user : Option Int)
    (di : Option (List DirectItem)) (r : OpResult)
    (h : placeOrder db user di = Except.ok r) :
    ∃ uid itemsData sc, user = some uid ∧
      pathItems db uid di = Except.ok (itemsData, sc) ∧
      r.order = ⟨freshId (db.orders.map (·.id)), some uid, totalOf itemsData,
        OrderStatus.COMPLETED⟩ ∧
      r.items = mkOrderItems (freshId (db.orders.map (·.id)))
        (freshId (db.orderItems.map (·.id))) itemsData ∧
      (r.txns = [DbStep.createOrderRow r.order ::
          r.items.map DbStep.createOrderItemRow] ∨
        ∃ cid, r.txns = [DbStep.createOrderRow r.order ::
          r.items.map DbStep.createOrderItemRow,
          [DbStep.deleteCartItemsByCart cid]]) := by
  unfold placeOrder at h
  split at h
  · simp at h
  · rename_i u0 uid
    split at h
    · simp at h
    · rename_i itemsData sc hpi
      split at h
      · simp at h
      · refine ⟨uid, itemsData, sc, rfl, hpi, ?_⟩
        dsimp only at h
        split at h
        · split at h
          · simp only [Except.ok.injEq] at h
            subst h
            exact ⟨rfl, rfl, Or.inr ⟨_, rfl⟩⟩
          · simp only [Except.ok.injEq] at h
            subst h
            exact ⟨rfl, rfl, Or.inl rfl⟩
        · simp only [Except.ok.injEq] at h
          subst h
          exact ⟨rfl, rfl, Or.inl rfl⟩

set_option maxHeartbeats 1000000 in
/-- Nodup table ids: a missing requested id forces the count mismatch and the
404 error naming it. -/
theorem furnitureLookup_missing (db : DB) (fids : List Int) (i : Int)
    (hnod : (db.furnitures.map (·.id)).Nodup)
    (hi : i ∈ fids) (hmiss : ∀ f ∈ db.furnitures, f.id ≠ i) :
    ∃ e, furnitureLookup db fids = Except.error e ∧ e.statusCode = 404 ∧
      i ∈ e.missing := by
  have hnotin : ∀ lstIds : List Int,
      (∀ x ∈ lstIds, ∃ f ∈ db.furnitures, f.id = x) → i ∉ lstIds := by
    intro lstIds hmem hin
    obtain ⟨f, hf, hfi⟩ := hmem i hin
    exact hmiss f hf hfi
  unfold furnitureLookup
  have hids : ∀ x ∈ (db.furnitures.filter (fun f => fids.contains f.id)).map (·.id),
      ∃ f ∈ db.furnitures, f.id = x := by
    intro x hx
    simp only [List.mem_map] at hx
    obtain ⟨f, hf, rfl⟩ := hx
    exact ⟨f, List.mem_of_mem_filter hf, rfl⟩
  have hne : ((db.furnitures.filter (fun f => fids.contains f.id)).length
      ≠ fids.length) := by
    intro hlen
    have hnodlst : ((db.furnitures.filter (fun f => fids.contains f.id)).map
        (·.id)).Nodup :=
      hnod.sublist (List.Sublist.map _ (List.filter_sublist _))
    have hsub : ((db.furnitures.filter (fun f => fids.contains f.id)).map (·.id))
        ⊆ fids := by
      intro x hx
      simp only [List.mem_map] at hx
      obtain ⟨f, hf, rfl⟩ := hx
      exact List.mem_of_elem_eq_true ((List.mem_filter.mp hf).2)
    have hsp := hnodlst.subperm hsub
    have hperm : (((db.furnitures.filter (fun f => fids.contains f.id)).map
        (·.id))).Perm fids := by
      apply hsp.perm_of_length_le
      rw [List.length_map]
      omega
    exact hnotin _ hids (hperm.mem_iff.mpr hi)
  rw [if_pos (by simpa using hne)]
  refine ⟨_, rfl, rfl, ?_⟩
  apply List.mem_filter.mpr
  refine ⟨hi, ?_⟩
  simp only [Bool.not_eq_true']
  cases hB : ((db.furnitures.filter (fun f => fids.contains f.id)).map (·.id)).contains i
  · rfl
  · exact absurd (hnotin _ hids (List.mem_of_elem_eq_true hB)) (by simp)

theorem pathItems_direct_error {db : DB} {uid : Int} {ds : List DirectItem}
    {e : ApiErr} (hlen : 0 < ds.length)
    (h : furnitureLookup db (ds.map (·.furnitureId)) = Except.error e) :
    pathItems db uid (some ds) = Except.error e := by
  unfold pathItems
  dsimp only
  rw [if_pos hlen, h]

theorem placeOrder_error_of_pathItems {db : DB} {uid : Int}
    {di : Option (List DirectItem)} {e : ApiErr}
    (h : pathItems db uid di = Except.error e) :
    placeOrder db (some uid) di = Except.error e := by
  unfold placeOrder
  dsimp only
  rw [h]

theorem createOrder_error_of_lookup {db : DB} {uid : Int}
    {items : List DirectItem} {gi : Option String} {e : ApiErr}
    (hne : items.length ≠ 0) (hu : db.users.contains uid = true)
    (h : furnitureLookup db (items.map (·.furnitureId)) = Except.error e) :
    createOrder db (some uid) items gi = Except.error e := by
  unfold createOrder
  rw [if_neg (by simpa using hne)]
  rw [if_neg (by simp)]
  have hck : checkUser db (some uid) = Except.ok () := by
    unfold checkUser
    dsimp only
    rw [if_pos hu]
  rw [hck]
  dsimp only
  rw [h]

/-- C3: for both the checkout and the generic order creation, a successful
order's `totalAmount` is the sum of `unitPrice × quantity` over its created
OrderItems, each `unitPrice` snapshotted from the referenced furniture's
stored price; and (for a store with unique furniture ids) a request naming a
nonexistent furniture id fails with a 404 that names the missing id and
writes nothing. -/
theorem order_total_snapshot_and_missing (db : DB) :
    (∀ user di r, placeOrder db user di = Except.ok r →
      r.order.totalAmount =
        (r.items.map (fun oi => oi.unitPrice * (oi.quantity : ℚ))).sum ∧
      ∀ oi ∈ r.items, ∃ f ∈ db.furnitures, f.id = oi.furnitureId ∧
        oi.unitPrice = f.price) ∧
    (∀ user items gi r, createOrder db user items gi = Except.ok r →
      r.order.totalAmount =
        (r.items.map (fun oi => oi.unitPrice * (oi.quantity : ℚ))).sum ∧
      ∀ oi ∈ r.items, ∃ f ∈ db.furnitures, f.id = oi.furnitureId ∧
        oi.unitPrice = f.price) ∧
    ((db.furnitures.map (·.id)).Nodup →
      (∀ uid ds i, 0 < ds.length → i ∈ ds.map (·.furnitureId) →
        (∀ f ∈ db.furnitures, f.id ≠ i) →
        ∃ e, placeOrder db (some uid) (some ds) = Except.error e ∧
          e.statusCode = 404 ∧ i ∈ e.missing ∧
          runPlaceOrder db (some uid) (some ds) = db) ∧
      (∀ uid items gi i, db.users.contains uid = true →
        i ∈ items.map (·.furnitureId) → (∀ f ∈ db.furnitures, f.id ≠ i) →
        ∃ e, createOrder db (some uid) items gi = Except.error e ∧
          e.statusCode = 404 ∧ i ∈ e.missing ∧
          runCreateOrder db (some uid) items gi = db)) := by
  refine ⟨?_, ?_, ?_⟩
  · intro user di r h
    obtain ⟨uid, itemsData, sc, -, hpi, hord, hitems, -⟩ :=
      placeOrder_ok_parts db user di r h
    constructor
    · rw [hord, hitems]
      exact (mkOrderItems_total _ _ _).symm
    · intro oi hoi
      rw [hitems] at hoi
      obtain ⟨d, hd, h1, h2, h3⟩ := mem_mkOrderItems hoi
      obtain ⟨f, hf, hf1, hf2⟩ := pathItems_snapshot hpi d hd
      refine ⟨f, hf, ?_, ?_⟩
      · rw [h1]
        exact hf1
      · rw [h3]
        exact hf2
  · intro user items gi r h
    obtain ⟨lst, hlk, hr⟩ := createOrder_ok_shape db user items gi r h
    subst hr
    constructor
    · exact (mkOrderItems_total _ _ _).symm
    · intro oi hoi
      obtain ⟨d, hd, h1, h2, h3⟩ := mem_mkOrderItems hoi
      obtain ⟨f, hf, hf1, hf2⟩ := mem_directItemsData hd
      have hfm : f ∈ db.furnitures := by
        rw [furnitureLookup_ok_sub hlk] at hf
        exact List.mem_of_mem_filter hf
      refine ⟨f, hfm, ?_, ?_⟩
      · rw [h1]
        exact hf1
      · rw [h3]
        exact hf2
  · intro hnod
    constructor
    · intro uid ds i hlen hi hmiss
      obtain ⟨e, helk, hec, hemem⟩ :=
        furnitureLookup_missing db (ds.map (·.furnitureId)) i hnod hi hmiss
      have hpl : placeOrder db (some uid) (some ds) = Except.error e :=
        placeOrder_error_of_pathItems (pathItems_direct_error hlen helk)
      refine ⟨e, hpl, hec, hemem, ?_⟩
      unfold runPlaceOrder
      rw [hpl]
    · intro uid items gi i hu hi hmiss
      obtain ⟨e, helk, hec, hemem⟩ :=
        furnitureLookup_missing db (items.map (·.furnitureId)) i hnod hi hmiss
      have hne : items.length ≠ 0 := by
        cases items with
        | nil => simp at hi
        | cons a as => simp
      have hco : createOrder db (some uid) items gi = Except.error e :=
        createOrder_error_of_lookup hne hu helk
      refine ⟨e, hco, hec, hemem, ?_⟩
      unfold runCreateOrder
      rw [hco]

/-- The successful result of the C3 witness checkout (cart-sourced at
`cartDb`), evaluated lazily. -/
def c3r : OpResult :=
  match placeOrder cartDb (some 1) none with
  | Except.ok r => r
  | Except.error _ => ⟨⟨0, none, 0, OrderStatus.PENDING⟩, [], []⟩

/-- Witness for C3: at `cartDb`, the cart-sourced checkout's total equals the
sum over its items, and ordering nonexistent furniture 99 fails with a 404
naming 99 and leaves the state unchanged. -/
theorem order_total_snapshot_and_missing_witness :
    (c3r.order.totalAmount =
      (c3r.items.map (fun oi => oi.unitPrice * (oi.quantity : ℚ))).sum) ∧
    (∃ e, placeOrder cartDb (some 1) (some [⟨99, 1⟩]) = Except.error e ∧
      e.statusCode = 404 ∧ (99 : Int) ∈ e.missing ∧
      runPlaceOrder cartDb (some 1) (some [⟨99, 1⟩]) = cartDb) := by
  constructor
  · exact ((order_total_snapshot_and_missing cartDb).1 (some 1) none c3r rfl).1
  · exact ((order_total_snapshot_and_missing cartDb).2.2 (by decide)).1 1
      [⟨99, 1⟩] 99 (by decide) (by decide) (by decide)

/-! ### C1: the cart-sourced checkout's cart-clear is not atomic with the
order creation -/

/-- Does a transaction contain an order-creating step? -/
def txnCreatesOrder (t : List DbStep) : Bool :=
  t.any (fun s => match s with
    | DbStep.createOrderRow _ => true
    | _ => false)

/-- Does a transaction contain a cart-clearing step of the checkout path? -/
def txnClearsCart (t : List DbStep) : Bool :=
  t.any (fun s => match s with
    | DbStep.deleteCartItemsByCart _ => true
    | _ => false)

theorem txnClearsCart_createSteps (o : Order) (ois : List OrderItem) :
    txnClearsCart (DbStep.createOrderRow o :: ois.map DbStep.createOrderItemRow)
      = false := by
  unfold txnClearsCart
  rw [List.any_eq_false]
  intro s hs
  simp only [List.mem_cons, List.mem_map] at hs
  rcases hs with rfl | ⟨oi, -, rfl⟩
  · simp
  · simp

theorem cartPathItems_ok_inv {db : DB} {uid : Int} {itemsData : List ItemData}
    {sc : Bool} (h : cartPathItems db uid = Except.ok (itemsData, sc)) :
    sc = true ∧ ∃ cart, db.carts.find? (fun c => c.userId == uid) = some cart := by
  unfold cartPathItems at h
  split at h
  · simp at h
  · rename_i cart hc
    dsimp only at h
    split at h
    · simp at h
    · simp only [Except.ok.injEq, Prod.mk.injEq] at h
      exact ⟨h.2.symm, cart, hc⟩

/-- Anatomy of a successful cart-sourced checkout: the user's cart was
found, and the result commits exactly two transactions — the order creation
followed by the cart-clear. -/
theorem placeOrder_cartSourced_shape (db : DB) (uid : Int) (r : OpResult)
    (h : placeOrder db (some uid) none = Except.ok r) :
    ∃ cart itemsData, db.carts.find? (fun c => c.userId == uid) = some cart ∧
      cartPathItems db uid = Except.ok (itemsData, true) ∧
      r = ⟨⟨freshId (db.orders.map (·.id)), some uid, totalOf itemsData,
          OrderStatus.COMPLETED⟩,
        mkOrderItems (freshId (db.orders.map (·.id)))
          (freshId (db.orderItems.map (·.id))) itemsData,
        [DbStep.createOrderRow ⟨freshId (db.orders.map (·.id)), some uid,
            totalOf itemsData, OrderStatus.COMPLETED⟩ ::
          (mkOrderItems (freshId (db.orders.map (·.id)))
            (freshId (db.orderItems.map (·.id))) itemsData).map
              DbStep.createOrderItemRow,
          [DbStep.deleteCartItemsByCart cart.id]]⟩ := by
  simp only [placeOrder] at h
  rw [show pathItems db uid none = cartPathItems db uid from rfl] at h
  split at h
  · simp at h
  · rename_i itemsData sc hcp
    obtain ⟨hsc, cart, hfind⟩ := cartPathItems_ok_inv hcp
    subst hsc
    split at h
    · simp at h
    · rw [if_pos rfl] at h
      rw [show (applyTxn db (DbStep.createOrderRow ⟨freshId (db.orders.map (·.id)),
          some uid, totalOf itemsData, OrderStatus.COMPLETED⟩ ::
          (mkOrderItems (freshId (db.orders.map (·.id)))
            (freshId (db.orderItems.map (·.id))) itemsData).map
              DbStep.createOrderItemRow)).carts = db.carts from
        (applyTxn_createSteps_frame db _ _).1] at h
      rw [hfind] at h
      simp only [Except.ok.injEq] at h
      exact ⟨cart, itemsData, hfind, hcp, h.symm⟩

/-- C1 amended: a successful cart-sourced checkout commits the order (with
its items) as one transaction and then deletes all CartItems of the user's
cart in a second, separate transaction; the cart ends with zero CartItems
and the clear only happens after the order creation succeeded — but the two
are distinct transactions, not one atomic transaction. -/
theorem placeOrder_cart_clear_two_txns (db : DB) (uid : Int) (r : OpResult)
    (h : placeOrder db (some uid) none = Except.ok r) :
    ∃ cart ∈ db.carts, (cart.userId == uid) = true ∧
      ∃ t1, r.txns = [t1, [DbStep.deleteCartItemsByCart cart.id]] ∧
        txnCreatesOrder t1 = true ∧ txnClearsCart t1 = false ∧
        (runTxns db r.txns).cartItems.filter (fun ci => ci.cartId == cart.id)
          = [] := by
  obtain ⟨cart, itemsData, hfind, hcp, hr⟩ := placeOrder_cartSourced_shape db uid r h
  subst hr
  have hmem : cart ∈ db.carts := List.mem_of_find?_eq_some hfind
  have hbeq := List.find?_some hfind
  refine ⟨cart, hmem, hbeq, _, rfl, ?_, txnClearsCart_createSteps _ _, ?_⟩
  · unfold txnCreatesOrder
    simp [List.any_cons]
  · exact filter_not_filter_eq_nil (fun ci : CartItem => ci.cartId == cart.id) _

/-- Concrete database for C1: user 1's cart 1 holds furniture 3 (price 50)
with quantity 2. -/
def checkoutDb : DB :=
  ⟨[1], [1], [⟨3, 1, 50, 1⟩], [], [⟨1, 1⟩], [⟨1, 1, 3, 2⟩], [], []⟩

/-- The successful result of the C1 checkout at `checkoutDb`, evaluated
lazily. -/
def c1r : OpResult :=
  match placeOrder checkoutDb (some 1) none with
  | Except.ok r => r
  | Except.error _ => ⟨⟨0, none, 0, OrderStatus.PENDING⟩, [], []⟩

/-- Counterexample to C1 as stated: the cart-sourced checkout at
`checkoutDb` commits TWO transactions — the first creates the order and does
not clear the cart, the second clears the cart and creates nothing — and the
state after only the first commit has the order created while the cart still
holds its item.  The order creation and the cart-clear are therefore not one
atomic transaction. -/
theorem placeOrder_cart_clear_not_atomic :
    placeOrder checkoutDb (some 1) none = Except.ok c1r ∧
    c1r.txns.length = 2 ∧
    txnCreatesOrder (c1r.txns.getD 0 []) = true ∧
    txnClearsCart (c1r.txns.getD 0 []) = false ∧
    txnCreatesOrder (c1r.txns.getD 1 []) = false ∧
    txnClearsCart (c1r.txns.getD 1 []) = true ∧
    (runTxns checkoutDb (c1r.txns.take 1)).orders.length = 1 ∧
    (runTxns checkoutDb (c1r.txns.take 1)).cartItems.length = 1 ∧
    (runTxns checkoutDb c1r.txns).cartItems.length = 0 :=
  ⟨rfl, rfl, rfl, rfl, rfl, rfl, rfl, rfl, rfl⟩

/-- Witness for the amended C1 at `checkoutDb`. -/
theorem placeOrder_cart_clear_two_txns_witness :
    ∃ cart ∈ checkoutDb.carts, (cart.userId == (1 : Int)) = true ∧
      ∃ t1, c1r.txns = [t1, [DbStep.deleteCartItemsByCart cart.id]] ∧
        txnCreatesOrder t1 = true ∧ txnClearsCart t1 = false ∧
        (runTxns checkoutDb c1r.txns).cartItems.filter
          (fun ci => ci.cartId == cart.id) = [] :=
  placeOrder_cart_clear_two_txns checkoutDb 1 c1r rfl

/-! ### C2: the hybrid recommendation result -/

/-- Elements of the collaborative tier are never already-purchased items. -/
theorem mem_collabPart_unpurchased {db : DB} {uid : Int} {nn : Nat}
    {excl : Option Int} {x : EnrichedFurniture}
    (hx : x ∈ collabPart db uid nn excl) : x.id ∉ purchasedIds db uid := by
  unfold collabPart at hx
  by_cases h0 : (((completedOrderItems db uid).length == 0)) = true
  · rw [if_pos h0] at hx
    simp at hx
  · rw [if_neg h0] at hx
    simp only [List.mem_map] at hx
    obtain ⟨f, hf, rfl⟩ := hx
    have hp := (mem_of_mem_furnitureQuery hf).2
    simp only [Bool.and_eq_true, Bool.not_eq_true'] at hp
    exact not_mem_base_of_excludeIdsFor hp.2

/-- Elements of the category tier avoid the already-collected ids. -/
theorem mem_categoryPart_avoid {db : DB} {uo : List OrderItem} {nn : Nat}
    {excl : Option Int} {collected : List Int} {x : EnrichedFurniture}
    (hx : x ∈ categoryPart db uo nn excl collected) : x.id ∉ collected := by
  unfold categoryPart at hx
  by_cases h0 : ((((isort (fun a b => b.2 ≤ a.2)
      (uo.foldl (fun acc oi =>
        match categoryOfItem db oi with
        | some cid => bumpCount acc cid
        | none => acc) [])).map (·.1)).length == 0)) = true
  · rw [if_pos h0] at hx
    simp at hx
  · rw [if_neg h0] at hx
    simp only [List.mem_map] at hx
    obtain ⟨f, hf, rfl⟩ := hx
    have hp := (mem_of_mem_furnitureQuery hf).2
    simp only [Bool.and_eq_true, Bool.not_eq_true'] at hp
    exact not_mem_base_of_excludeIdsFor hp.2

/-- Elements of the popularity tier avoid the already-collected ids. -/
theorem mem_popularPart_avoid {db : DB} {nn : Nat} {excl : Option Int}
    {collected : List Int} {x : EnrichedFurniture}
    (hx : x ∈ popularPart db nn excl collected) : x.id ∉ collected := by
  unfold popularPart at hx
  simp only [List.mem_map] at hx
  obtain ⟨f, hf, rfl⟩ := hx
  have hp := (mem_of_mem_furnitureQuery hf).2
  simp only [Bool.not_eq_true'] at hp
  exact not_mem_base_of_excludeIdsFor hp

theorem collabPart_ids_nodup {db : DB} (hnod : (db.furnitures.map (·.id)).Nodup)
    (uid : Int) (nn : Nat) (excl : Option Int) :
    ((collabPart db uid nn excl).map (·.id)).Nodup := by
  unfold collabPart
  by_cases h0 : (((completedOrderItems db uid).length == 0)) = true
  · rw [if_pos h0]
    simp
  · rw [if_neg h0]
    rw [List.map_map]
    exact furnitureQuery_ids_nodup hnod _ _ _

theorem categoryPart_ids_nodup {db : DB} (hnod : (db.furnitures.map (·.id)).Nodup)
    (uo : List OrderItem) (nn : Nat) (excl : Option Int) (collected : List Int) :
    ((categoryPart db uo nn excl collected).map (·.id)).Nodup := by
  unfold categoryPart
  by_cases h0 : ((((isort (fun a b => b.2 ≤ a.2)
      (uo.foldl (fun acc oi =>
        match categoryOfItem db oi with
        | some cid => bumpCount acc cid
        | none => acc) [])).map (·.1)).length == 0)) = true
  · rw [if_pos h0]
    simp
  · rw [if_neg h0]
    rw [List.map_map]
    exact furnitureQuery_ids_nodup hnod _ _ _

theorem popularPart_ids_nodup {db : DB} (hnod : (db.furnitures.map (·.id)).Nodup)
    (nn : Nat) (excl : Option Int) (collected : List Int) :
    ((popularPart db nn excl collected).map (·.id)).Nodup := by
  unfold popularPart
  rw [List.map_map]
  exact furnitureQuery_ids_nodup hnod _ _ _

theorem nodup_ids_append3 {c k p : List EnrichedFurniture}
    (hc : (c.map (·.id)).Nodup) (hk : (k.map (·.id)).Nodup)
    (hp : (p.map (·.id)).Nodup)
    (hkc : ∀ x ∈ k, x.id ∉ idsOf c)
    (hpck : ∀ x ∈ p, x.id ∉ idsOf (c ++ k)) :
    (((c ++ k ++ p).map (·.id))).Nodup := by
  have hck : ((c ++ k).map (·.id)).Nodup := by
    rw [List.map_append]
    refine hc.append hk ?_
    intro a hac hak
    simp only [List.mem_map] at hak
    obtain ⟨x, hxk, rfl⟩ := hak
    exact hkc x hxk hac
  rw [List.map_append]
  refine hck.append hp ?_
  intro a hack hap
  simp only [List.mem_map] at hap
  obtain ⟨x, hxp, rfl⟩ := hap
  exact hpck x hxp hack

/-- The collaborative tier of `hybridTiers` equals `collabPart` whether or
not the user has history (the helper's own empty-history guard returns the
empty list). -/
theorem hybridTiers_first_eq_collab (db : DB) (uid : Int) (nn : Nat)
    (excl : Option Int) :
    (if 0 < (completedOrderItems db uid).length then collabPart db uid nn excl
      else []) = collabPart db uid nn excl := by
  by_cases hh : 0 < (completedOrderItems db uid).length
  · rw [if_pos hh]
  · rw [if_neg hh]
    have hlen : (completedOrderItems db uid).length = 0 := Nat.eq_zero_of_not_pos hh
    unfold collabPart
    rw [if_pos (by simpa using hlen)]

set_option maxHeartbeats 1000000 in
/-- The merged three tiers carry no duplicate furniture ids, and the first
tier is the collaborative part. -/
theorem hybridTiers_spec (db : DB) (uid : Int) (nn : Nat) (excl : Option Int)
    (hnod : (db.furnitures.map (·.id)).Nodup) :
    (((hybridTiers db uid nn excl).1 ++ (hybridTiers db uid nn excl).2.1 ++
        (hybridTiers db uid nn excl).2.2).map (·.id)).Nodup ∧
    (hybridTiers db uid nn excl).1 = collabPart db uid nn excl := by
  unfold hybridTiers
  simp only []
  rw [hybridTiers_first_eq_collab db uid nn excl]
  refine ⟨?_, rfl⟩
  by_cases hkcond : 0 < (completedOrderItems db uid).length ∧
      (collabPart db uid nn excl).length < nn
  · rw [if_pos hkcond]
    by_cases hpcond : (collabPart db uid nn excl ++
        categoryPart db (completedOrderItems db uid)
          (nn - (collabPart db uid nn excl).length) excl
          (idsOf (collabPart db uid nn excl))).length < nn
    · rw [if_pos hpcond]
      refine nodup_ids_append3 (collabPart_ids_nodup hnod _ _ _)
        (categoryPart_ids_nodup hnod _ _ _ _) (popularPart_ids_nodup hnod _ _ _)
        ?_ ?_
      · intro x hx
        exact mem_categoryPart_avoid hx
      · intro x hx
        exact mem_popularPart_avoid hx
    · rw [if_neg hpcond]
      refine nodup_ids_append3 (collabPart_ids_nodup hnod _ _ _)
        (categoryPart_ids_nodup hnod _ _ _ _) (by simp) ?_ ?_
      · intro x hx
        exact mem_categoryPart_avoid hx
      · intro x hx
        simp at hx
  · rw [if_neg hkcond]
    by_cases hpcond : (collabPart db uid nn excl ++
        ([] : List EnrichedFurniture)).length < nn
    · rw [if_pos hpcond]
      refine nodup_ids_append3 (collabPart_ids_nodup hnod _ _ _) (by simp)
        (popularPart_ids_nodup hnod _ _ _) ?_ ?_
      · intro x hx
        simp at hx
      · intro x hx
        exact mem_popularPart_avoid hx
    · rw [if_neg hpcond]
      refine nodup_ids_append3 (collabPart_ids_nodup hnod _ _ _) (by simp)
        (by simp) ?_ ?_
      · intro x hx
        simp at hx
      · intro x hx
        simp at hx

set_option maxHeartbeats 1000000 in
/-- C2 amended: with a valid limit, an existing user with at least one
COMPLETED-order purchase and unique furniture ids, the user recommendation
result is labelled `hybrid`, has at most `limit` items and no duplicate
furniture ids, and its collaborative tier contributes no already-purchased
item; however the category-based fallback tier (not only the popularity
tier) may contribute already-purchased items (see the counterexample). -/
theorem hybrid_bounded_nodup_collab_unpurchased (db : DB) (userId : Int)
    (limitQ excludeQ : Option String) (n : Int)
    (hnod : (db.furnitures.map (·.id)).Nodup)
    (hn : parseLimit limitQ = JsNum.int n) (h1 : 1 ≤ n) (h50 : n ≤ 50)
    (hu : db.users.contains userId = true)
    (hhist : 0 < (completedOrderItems db userId).length) :
    ∃ r, getUserRecommendations db userId limitQ excludeQ = Except.ok r ∧
      r.algorithm = "hybrid" ∧
      r.recommendations.length ≤ n.toNat ∧
      (r.recommendations.map (·.id)).Nodup ∧
      (∀ x ∈ collabPart db userId n.toNat (truthyInt (parseExcludeId excludeQ)),
        x.id ∉ purchasedIds db userId) := by
  have hrej : limitRejected (JsNum.int n) = false := by
    unfold limitRejected
    simp only [decide_eq_false_iff_not, Bool.or_eq_false_iff, decide_eq_false_iff_not]
    omega
  obtain ⟨hnodup, -⟩ := hybridTiers_spec db userId n.toNat
    (truthyInt (parseExcludeId excludeQ)) hnod
  refine ⟨⟨((hybridTiers db userId n.toNat (truthyInt (parseExcludeId excludeQ))).1 ++
      (hybridTiers db userId n.toNat (truthyInt (parseExcludeId excludeQ))).2.1 ++
      (hybridTiers db userId n.toNat (truthyInt (parseExcludeId excludeQ))).2.2).take
        n.toNat, "hybrid"⟩, ?_, rfl, ?_, ?_, ?_⟩
  · simp only [getUserRecommendations, hn, hrej, Bool.false_eq_true, if_false, hu,
      Bool.not_true]
    rw [if_pos hhist]
  · exact List.length_take_le _ _
  · exact hnodup.sublist (List.Sublist.map _ (List.take_sublist _ _))
  · intro x hx
    exact mem_collabPart_unpurchased hx

/-- Concrete database where user 1 purchased furniture 1 (category 10) via a
COMPLETED order, and furniture 2 is the only other (unpurchased) item. -/
def userRecsDb : DB :=
  ⟨[1], [10], [⟨1, 10, 100, 1⟩, ⟨2, 10, 200, 2⟩], [], [], [],
    [⟨100, some 1, 100, OrderStatus.COMPLETED⟩], [⟨500, 100, 1, 1, 100⟩]⟩

/-- Counterexample to C2 as stated: at `userRecsDb` with `limit=2`, the
hybrid result returns furniture ids `[2, 1]` — item 1 is already purchased
by the user, yet it was contributed by the category-based fallback tier
while the popularity fallback tier contributed nothing.  So the result
includes a purchased item that does NOT come from the popularity tier. -/
theorem hybrid_returns_purchased_outside_popular_tier :
    (getUserRecommendations userRecsDb 1 (some "2") none).map
        (fun r => r.recommendations.map (·.id)) = Except.ok [2, 1] ∧
    (getUserRecommendations userRecsDb 1 (some "2") none).map
        (fun r => r.algorithm) = Except.ok "hybrid" ∧
    (1 : Int) ∈ purchasedIds userRecsDb 1 ∧
    (hybridTiers userRecsDb 1 2 none).2.2 = [] ∧
    ((hybridTiers userRecsDb 1 2 none).2.1.map (·.id)) = [1] := by
  refine ⟨rfl, rfl, by decide, rfl, rfl⟩

/-- Witness for the amended C2 at `userRecsDb` with the default limit. -/
theorem hybrid_bounded_nodup_collab_unpurchased_witness :
    ∃ r, getUserRecommendations userRecsDb 1 none none = Except.ok r ∧
      r.algorithm = "hybrid" ∧
      r.recommendations.length ≤ (10 : Int).toNat ∧
      (r.recommendations.map (·.id)).Nodup ∧
      (∀ x ∈ collabPart userRecsDb 1 (10 : Int).toNat
          (truthyInt (parseExcludeId none)),
        x.id ∉ purchasedIds userRecsDb 1) :=
  hybrid_bounded_nodup_collab_unpurchased userRecsDb 1 none none 10 (by decide)
    rfl (by decide) (by decide) (by decide) (by decide)

end FurniStore
